import Mathlib

/-!
Verification of the WE32100 CPU core emulator (cpu.rs).

This file gives a shallow embedding of the register file, PSW helpers,
operand decoder, operand read/write, the executor dispatch, and the step
loop of the emulator, and proves or refutes the frozen claims about them.

Machine integers are modelled as Nat with explicit reductions modulo
2^32 (or 2^16, 2^8) where the Rust u32/u16/u8 arithmetic wraps.  Fallible
paths return an explicit result type; a Rust panic (integer division
overflow, unimplemented opcodes, unwrap on a bus error) and loop fuel
exhaustion are both modelled by the `stuck` outcome, which carries no
state.

The memory bus lives outside the given source (bus.rs is not present);
it is modelled from the specification, section 6: a byte addressable
store with little endian typed reads and writes, a service hook and an
interrupt query.
-/

set_option maxRecDepth 40000

namespace DmdCore

/-- 2^32, the modulus of u32 arithmetic. -/
def M32 : Nat := 4294967296

/-- 2^16. -/
def M16 : Nat := 65536

/-- 2^8. -/
def M8 : Nat := 256

/-- All 32 bits set (the u32 complement mask). -/
def MASK32 : Nat := 4294967295

/-! PSW flags and offsets, from cpu.rs. -/

def F_ET : Nat := 0x00000003
def F_TM : Nat := 0x00000004
def F_ISC : Nat := 0x00000078
def F_I : Nat := 0x00000080
def F_R : Nat := 0x00000100
def F_PM : Nat := 0x00000600
def F_CM : Nat := 0x00001800
def F_C : Nat := 0x00040000
def F_V : Nat := 0x00080000
def F_Z : Nat := 0x00100000
def F_N : Nat := 0x00200000

def O_ET : Nat := 0
def O_ISC : Nat := 3

/-! Register indexes, from cpu.rs. -/

def R_FP : Nat := 9
def R_AP : Nat := 10
def R_PSW : Nat := 11
def R_SP : Nat := 12
def R_PCBP : Nat := 13
def R_ISP : Nat := 14
def R_PC : Nat := 15

/-- The 64-entry interrupt priority level table, from cpu.rs. -/
def IPL_TABLE : List Nat :=
  [0,  14, 14, 14, 14, 14, 14, 14,
   15, 15, 15, 15, 15, 15, 15, 15,
   15, 15, 15, 15, 15, 15, 15, 15,
   15, 15, 15, 15, 15, 15, 15, 15,
   15, 15, 15, 15, 15, 15, 15, 15,
   15, 15, 15, 15, 15, 15, 15, 15,
   15, 15, 15, 15, 15, 15, 15, 15,
   15, 15, 15, 15, 15, 15, 15, 15]

/-- Rust array indexing IPL_TABLE[i]; the index is always masked with 0x3f
by the caller, so it is in range. -/
def iplGet (i : Nat) : Nat := IPL_TABLE.getD i 0

def WE32100_VERSION : Nat := 0x1a

/-! Enumerations, from cpu.rs. -/

inductive AddrMode where
  | None
  | Absolute
  | AbsoluteDeferred
  | ByteDisplacement
  | ByteDisplacementDeferred
  | HalfwordDisplacement
  | HalfwordDisplacementDeferred
  | WordDisplacement
  | WordDisplacementDeferred
  | APShortOffset
  | FPShortOffset
  | ByteImmediate
  | HalfwordImmediate
  | WordImmediate
  | PositiveLiteral
  | NegativeLiteral
  | Register
  | RegisterDeferred
  | Expanded
deriving DecidableEq, Repr

inductive OpType where
  | Lit
  | Src
  | Dest
deriving DecidableEq, Repr

inductive Data where
  | None
  | Byte
  | Half
  | Word
  | SByte
  | UHalf
  | UWord
deriving DecidableEq, Repr

inductive CpuLevel where
  | User
  | Supervisor
  | Executive
  | Kernel
deriving DecidableEq, Repr

inductive ErrorContext where
  | None
  | NormalGateVector
  | ProcessGatePcb
  | ProcessOldPcb
  | ProcessNewPcb
  | ResteGateVector
  | ResetSystemData
  | ResetIntStack
  | StackFault
deriving DecidableEq, Repr

/-! Error taxonomy, from err.rs via the contracts in the spec, section 6
and 7 (err.rs is not under src; the variants are exactly those named by
the spec and used by cpu.rs). -/

inductive BusError where
  | Alignment
  | Permission
  | NoDevice (addr : Nat)
  | Read (addr : Nat)
  | Write (addr : Nat)
deriving DecidableEq, Repr

inductive CpuException where
  | IllegalOpcode
  | PrivilegedOpcode
  | IntegerZeroDivide
  | InvalidDescriptor
deriving DecidableEq, Repr

inductive CpuError where
  | Bus (e : BusError)
  | Exception (e : CpuException)
deriving DecidableEq, Repr

/-! Sign extension and offset helpers, from cpu.rs. -/

/-- Rust sign_extend_halfword: ((data as i16) as i32) as u32. -/
def sign_extend_halfword (data : Nat) : Nat :=
  let d := data % M16
  if d < 32768 then d else 4294901760 + d

/-- Rust sign_extend_byte: ((data as i8) as i32) as u32. -/
def sign_extend_byte (data : Nat) : Nat :=
  let d := data % M8
  if d < 128 then d else 4294967040 + d

/-- Rust add_offset: ((val as i32).wrapping_add(offset as i32)) as u32,
which for values below 2^32 is addition modulo 2^32. -/
def add_offset (val offset : Nat) : Nat := (val + offset) % M32

/-- Interpret a u32 bit pattern as an i32 value. -/
def toI32 (n : Nat) : Int :=
  let m := n % M32
  if m < 2147483648 then (m : Int) else (m : Int) - (M32 : Int)

/-- Interpret a u16 bit pattern (the low 16 bits) as an i16 value. -/
def toI16 (n : Nat) : Int :=
  let m := n % M16
  if m < 32768 then (m : Int) else (m : Int) - (M16 : Int)

/-- Interpret a u8 bit pattern (the low 8 bits) as an i8 value. -/
def toI8 (n : Nat) : Int :=
  let m := n % M8
  if m < 128 then (m : Int) else (m : Int) - (M8 : Int)

/-- Cast a signed integer back to a u32 bit pattern (twos complement,
which Rust `as u32` performs for any signed width, sign extending first). -/
def u32ofInt (i : Int) : Nat := (i.emod (M32 : Int)).toNat

/-- u32 addition of a signed i32 increment: (pc as i32 + i) as u32. -/
def pcAdd (pc : Nat) (i : Int) : Nat := u32ofInt ((pc : Int) + i)

/-- u32 complement, Rust !x on u32. -/
def not32 (x : Nat) : Nat := MASK32 ^^^ (x % M32)

/-! The decoded operand record, from cpu.rs.  The field names follow the
source (data_type, expanded_type are written dataType, expandedType). -/

structure Operand where
  size : Nat
  mode : AddrMode
  dataType : Data
  expandedType : Option Data
  register : Option Nat
  embedded : Nat
  /-- Data moved to or from the operand. -/
  data : Nat
deriving DecidableEq, Repr

/-- Operand::new from cpu.rs: data starts at 0. -/
def Operand.new (size : Nat) (mode : AddrMode) (dataType : Data)
    (expandedType : Option Data) (register : Option Nat) (embedded : Nat) : Operand :=
  ⟨size, mode, dataType, expandedType, register, embedded, 0⟩

/-- Operand::data_type(): the expanded type overrides the declared type. -/
def Operand.effType (op : Operand) : Data :=
  match op.expandedType with
  | some t => t
  | none => op.dataType

/-- A mnemonic record from the opcode table. -/
structure Mnemonic where
  opcode : Nat
  dtype : Data
  name : String
  ops : List OpType
deriving DecidableEq, Repr

/-- The four operand slots of the instruction register, modelling the
Rust array [Operand; 4]. -/
structure Op4 where
  o0 : Operand
  o1 : Operand
  o2 : Operand
  o3 : Operand
deriving DecidableEq, Repr

/-- Array indexing operands[i]; the executor only uses indexes 0 to 3. -/
def Op4.get (o : Op4) (i : Nat) : Operand :=
  match i with
  | 0 => o.o0
  | 1 => o.o1
  | 2 => o.o2
  | _ => o.o3

/-- Array update operands[i] = v. -/
def Op4.set (o : Op4) (i : Nat) (v : Operand) : Op4 :=
  match i with
  | 0 => { o with o0 := v }
  | 1 => { o with o1 := v }
  | 2 => { o with o2 := v }
  | _ => { o with o3 := v }

/-- The instruction register, from cpu.rs. -/
structure Instruction where
  opcode : Nat
  name : String
  dataType : Data
  bytes : Nat
  operandCount : Nat
  operands : Op4
deriving DecidableEq, Repr

/-- A default empty operand, as built by Cpu::new. -/
def emptyOperand : Operand := Operand.new 0 AddrMode.None Data.None none none 0

/-- The instruction register as initialised by Cpu::new. -/
def emptyInstruction : Instruction :=
  ⟨0, "???", Data.None, 0, 0, ⟨emptyOperand, emptyOperand, emptyOperand, emptyOperand⟩⟩

/-- The CPU state: sixteen u32 registers addressed by index, the error
context, the step counter and the instruction register. -/
structure Cpu where
  r : Nat → Nat
  errorContext : ErrorContext
  steps : Nat
  ir : Instruction

/-- Cpu::new: all registers zero. -/
def Cpu.new : Cpu := ⟨fun _ => 0, ErrorContext.None, 0, emptyInstruction⟩

/-- Write one register: self.r[i] = v. -/
def Cpu.setReg (cpu : Cpu) (i : Nat) (v : Nat) : Cpu :=
  { cpu with r := Function.update cpu.r i v }

/-- Read the operand record at an index of the instruction register. -/
def Cpu.getOp (cpu : Cpu) (i : Nat) : Operand := cpu.ir.operands.get i

/-- Replace the operand record at an index of the instruction register. -/
def Cpu.setOp (cpu : Cpu) (i : Nat) (v : Operand) : Cpu :=
  { cpu with ir := { cpu.ir with operands := cpu.ir.operands.set i v } }

/-- self.ir.operands[index].data = v. -/
def Cpu.setOpData (cpu : Cpu) (i : Nat) (v : Nat) : Cpu :=
  cpu.setOp i { cpu.getOp i with data := v }

/-! The memory bus.  Modelled from the spec: bus.rs is not under src.
Section 6 requires a byte addressable store with typed reads and writes,
a service hook that advances peripheral time, and an interrupt query
returning the highest priority pending vector.  The byte order of the
halfword and word accessors is little endian, as fixed by the spec
scenarios (bytes 78 56 34 12 read as the word 0x12345678).  A read or
write of a missing address fails with the corresponding bus error. -/

structure Bus where
  mem : Nat → Option Nat
  intr : Option Nat
  ticks : Nat

/-- Modelled from the spec: read one byte, failing when no device claims
the address. -/
def Bus.read_byte (bus : Bus) (addr : Nat) : Except BusError Nat :=
  match bus.mem addr with
  | some b => .ok (b % M8)
  | none => .error (BusError.Read addr)

/-- Modelled from the spec: read a little endian halfword. -/
def Bus.read_half (bus : Bus) (addr : Nat) : Except BusError Nat :=
  match bus.read_byte addr with
  | .error e => .error e
  | .ok lo =>
    match bus.read_byte (addr + 1) with
    | .error e => .error e
    | .ok hi => .ok (lo + 256 * hi)

/-- Modelled from the spec: read a little endian word. -/
def Bus.read_word (bus : Bus) (addr : Nat) : Except BusError Nat :=
  match bus.read_half addr, bus.read_half (addr + 2) with
  | .ok lo, .ok hi => .ok (lo + 65536 * hi)
  | .error e, _ => .error e
  | _, .error e => .error e

/-- Modelled from the spec: write one byte, failing when no device
claims the address. -/
def Bus.write_byte (bus : Bus) (addr : Nat) (val : Nat) : Except BusError Bus :=
  match bus.mem addr with
  | some _ => .ok { bus with mem := Function.update bus.mem addr (some (val % M8)) }
  | none => .error (BusError.Write addr)

/-- Modelled from the spec: write a little endian halfword. -/
def Bus.write_half (bus : Bus) (addr : Nat) (val : Nat) : Except BusError Bus :=
  match bus.write_byte addr (val % 256) with
  | .error e => .error e
  | .ok bus => bus.write_byte (addr + 1) (val / 256 % 256)

/-- Modelled from the spec: write a little endian word. -/
def Bus.write_word (bus : Bus) (addr : Nat) (val : Nat) : Except BusError Bus :=
  match bus.write_half addr (val % 65536) with
  | .error e => .error e
  | .ok bus => bus.write_half (addr + 2) (val / 65536 % 65536)

/-- Modelled from the spec: the service hook advances peripheral time;
the store and pending vector of this abstract bus are unaffected. -/
def Bus.service (bus : Bus) : Bus := { bus with ticks := bus.ticks + 1 }

/-- Modelled from the spec: query the pending interrupt vector. -/
def Bus.get_interrupts (bus : Bus) : Option Nat := bus.intr

/-- Build a bus whose store holds the given program bytes starting at a
base address, with nothing else mapped and no pending interrupt. -/
def busOfProgram (base : Nat) (prog : List Nat) : Bus :=
  ⟨fun a => if base ≤ a ∧ a < base + prog.length
            then some (prog.getD (a - base) 0) else none,
   none, 0⟩

/-! Result types.  `Res` is a pure fallible result (used by the decoder,
which never changes CPU state in this factoring, and by the division
helpers).  `Outcome` carries the mutated CPU and bus, matching the Rust
&mut self methods; `stuck` models a Rust panic or exhausted loop fuel
and carries no state. -/

inductive Res (α : Type) where
  | ok (a : α)
  | err (e : CpuError)
  | stuck
deriving DecidableEq, Repr

inductive Outcome (α : Type) where
  | ok (a : α) (cpu : Cpu) (bus : Bus)
  | err (e : CpuError) (cpu : Cpu) (bus : Bus)
  | stuck

/-- Sequencing of stateful fallible computations (the Rust ? operator). -/
def Outcome.bind {α β : Type} (o : Outcome α) (f : α → Cpu → Bus → Outcome β) : Outcome β :=
  match o with
  | .ok a cpu bus => f a cpu bus
  | .err e cpu bus => .err e cpu bus
  | .stuck => .stuck

/-- Lift a bus read into an Outcome (the Rust ? on a bus access). -/
def busRead {α : Type} (r : Except BusError α) (cpu : Cpu) (bus : Bus) : Outcome α :=
  match r with
  | .ok a => .ok a cpu bus
  | .error e => .err (CpuError.Bus e) cpu bus

/-- Lift a bus write into an Outcome, carrying the updated bus on
success and the untouched pre-write bus on failure (writes of this
abstract bus are atomic). -/
def busWrite (r : Except BusError Bus) (cpu : Cpu) (bus : Bus) : Outcome Unit :=
  match r with
  | .ok bus' => .ok () cpu bus'
  | .error e => .err (CpuError.Bus e) cpu bus

/-- The error value of an outcome, if it is an error. -/
def Outcome.errVal {α : Type} : Outcome α → Option CpuError
  | .err e _ _ => some e
  | _ => none

/-- The returned value of an outcome, if it succeeded. -/
def Outcome.okVal {α : Type} : Outcome α → Option α
  | .ok a _ _ => some a
  | _ => none

/-- The CPU carried by an outcome (for ok and err alike). -/
def Outcome.cpuVal {α : Type} : Outcome α → Option Cpu
  | .ok _ cpu _ => some cpu
  | .err _ cpu _ => some cpu
  | .stuck => none

/-- The bus carried by an outcome (for ok and err alike). -/
def Outcome.busVal {α : Type} : Outcome α → Option Bus
  | .ok _ _ bus => some bus
  | .err _ _ bus => some bus
  | .stuck => none

/-- Rust .unwrap(): a failed call panics instead of propagating. -/
def unwrapped {α : Type} (o : Outcome α) : Outcome α :=
  match o with
  | .err _ _ _ => .stuck
  | x => x

/-! Flag and PSW helpers, from cpu.rs. -/

def Cpu.set_c_flag (cpu : Cpu) (set : Bool) : Cpu :=
  if set then cpu.setReg R_PSW (cpu.r R_PSW ||| F_C)
  else cpu.setReg R_PSW (cpu.r R_PSW &&& not32 F_C)

def Cpu.c_flag (cpu : Cpu) : Bool := ((cpu.r R_PSW &&& F_C) >>> 18) == 1

def Cpu.set_v_flag (cpu : Cpu) (set : Bool) : Cpu :=
  if set then cpu.setReg R_PSW (cpu.r R_PSW ||| F_V)
  else cpu.setReg R_PSW (cpu.r R_PSW &&& not32 F_V)

def Cpu.v_flag (cpu : Cpu) : Bool := ((cpu.r R_PSW &&& F_V) >>> 19) == 1

def Cpu.set_z_flag (cpu : Cpu) (set : Bool) : Cpu :=
  if set then cpu.setReg R_PSW (cpu.r R_PSW ||| F_Z)
  else cpu.setReg R_PSW (cpu.r R_PSW &&& not32 F_Z)

def Cpu.z_flag (cpu : Cpu) : Bool := ((cpu.r R_PSW &&& F_Z) >>> 20) == 1

def Cpu.set_n_flag (cpu : Cpu) (set : Bool) : Cpu :=
  if set then cpu.setReg R_PSW (cpu.r R_PSW ||| F_N)
  else cpu.setReg R_PSW (cpu.r R_PSW &&& not32 F_N)

def Cpu.n_flag (cpu : Cpu) : Bool := ((cpu.r R_PSW &&& F_N) >>> 21) == 1

def Cpu.set_isc (cpu : Cpu) (val : Nat) : Cpu :=
  let cpu := cpu.setReg R_PSW (cpu.r R_PSW &&& not32 F_ISC)
  cpu.setReg R_PSW (cpu.r R_PSW ||| ((val &&& 0xf) <<< 3))

def Cpu.set_priv_level (cpu : Cpu) (level : CpuLevel) : Cpu :=
  let val : Nat :=
    match level with
    | CpuLevel.Kernel => 0
    | CpuLevel.Executive => 1
    | CpuLevel.Supervisor => 2
    | CpuLevel.User => 3
  let old_level := (cpu.r R_PSW &&& F_CM) >>> 11
  let cpu := cpu.setReg R_PSW (cpu.r R_PSW &&& not32 F_PM)
  let cpu := cpu.setReg R_PSW (cpu.r R_PSW ||| ((old_level &&& 3) <<< 9))
  let cpu := cpu.setReg R_PSW (cpu.r R_PSW &&& not32 F_CM)
  cpu.setReg R_PSW (cpu.r R_PSW ||| ((val &&& 3) <<< 11))

def Cpu.priv_level (cpu : Cpu) : CpuLevel :=
  let cm := ((cpu.r R_PSW &&& F_CM) >>> 11) &&& 3
  match cm with
  | 0 => CpuLevel.Kernel
  | 1 => CpuLevel.Executive
  | 2 => CpuLevel.Supervisor
  | _ => CpuLevel.User

/-- set_v_flag_op from cpu.rs: note that it switches on the raw declared
data_type field of the operand, not on data_type(). -/
def Cpu.set_v_flag_op (cpu : Cpu) (val : Nat) (index : Nat) : Cpu :=
  match (cpu.getOp index).dataType with
  | .Word | .UWord => cpu.set_v_flag false
  | .Half | .UHalf => cpu.set_v_flag (decide (val > 0xffff))
  | .Byte | .SByte => cpu.set_v_flag (decide (val > 0xff))
  | .None => cpu

/-- set_nz_flags from cpu.rs: also switches on the raw data_type field. -/
def Cpu.set_nz_flags (cpu : Cpu) (val : Nat) (index : Nat) : Cpu :=
  match (cpu.getOp index).dataType with
  | .Word | .UWord =>
    let cpu := cpu.set_n_flag (decide (val &&& 0x80000000 ≠ 0))
    cpu.set_z_flag (decide (val = 0))
  | .Half | .UHalf =>
    let cpu := cpu.set_n_flag (decide (val &&& 0x8000 ≠ 0))
    cpu.set_z_flag (decide (val &&& 0xffff = 0))
  | .Byte | .SByte =>
    let cpu := cpu.set_n_flag (decide (val &&& 0x80 ≠ 0))
    cpu.set_z_flag (decide (val &&& 0xff = 0))
  | .None => cpu

/-! Effective address computation and operand read and write, from
cpu.rs. -/

/-- Cpu::effective_address.  Besides returning the address, it stores
the address into the data field of the operand record. -/
def Cpu.effective_address (cpu : Cpu) (bus : Bus) (index : Nat) : Outcome Nat :=
  let embedded := (cpu.getOp index).embedded
  let mode := (cpu.getOp index).mode
  let register := (cpu.getOp index).register
  match mode with
  | .RegisterDeferred =>
    match register with
    | some v => .ok (cpu.r v) (cpu.setOpData index (cpu.r v)) bus
    | none => .err (.Exception .IllegalOpcode) cpu bus
  | .Absolute => .ok embedded (cpu.setOpData index embedded) bus
  | .AbsoluteDeferred =>
    match bus.read_word embedded with
    | .ok w => .ok w (cpu.setOpData index w) bus
    | .error e => .err (.Bus e) cpu bus
  | .FPShortOffset =>
    let a := add_offset (cpu.r R_FP) (sign_extend_byte embedded)
    .ok a (cpu.setOpData index a) bus
  | .APShortOffset =>
    let a := add_offset (cpu.r R_AP) (sign_extend_byte embedded)
    .ok a (cpu.setOpData index a) bus
  | .WordDisplacement =>
    match register with
    | some v =>
      let a := add_offset (cpu.r v) embedded
      .ok a (cpu.setOpData index a) bus
    | none => .err (.Exception .IllegalOpcode) cpu bus
  | .WordDisplacementDeferred =>
    match register with
    | some v =>
      match bus.read_word (add_offset (cpu.r v) embedded) with
      | .ok w => .ok w (cpu.setOpData index w) bus
      | .error e => .err (.Bus e) cpu bus
    | none => .err (.Exception .IllegalOpcode) cpu bus
  | .HalfwordDisplacement =>
    match register with
    | some v =>
      let a := add_offset (cpu.r v) (sign_extend_halfword embedded)
      .ok a (cpu.setOpData index a) bus
    | none => .err (.Exception .IllegalOpcode) cpu bus
  | .HalfwordDisplacementDeferred =>
    match register with
    | some v =>
      match bus.read_word (add_offset (cpu.r v) (sign_extend_halfword embedded)) with
      | .ok w => .ok w (cpu.setOpData index w) bus
      | .error e => .err (.Bus e) cpu bus
    | none => .err (.Exception .IllegalOpcode) cpu bus
  | .ByteDisplacement =>
    match register with
    | some v =>
      let a := add_offset (cpu.r v) (sign_extend_byte embedded)
      .ok a (cpu.setOpData index a) bus
    | none => .err (.Exception .IllegalOpcode) cpu bus
  | .ByteDisplacementDeferred =>
    match register with
    | some v =>
      match bus.read_word (add_offset (cpu.r v) (sign_extend_byte embedded)) with
      | .ok w => .ok w (cpu.setOpData index w) bus
      | .error e => .err (.Bus e) cpu bus
    | none => .err (.Exception .IllegalOpcode) cpu bus
  | _ => .err (.Exception .IllegalOpcode) cpu bus

/-- Cpu::read_op.  Note the Rust body copies the operand record into a
local variable and assigns the read value to the data field of that
local copy, which is then discarded: the instruction register keeps the
stale data field (or the effective address, for memory modes). -/
def Cpu.read_op (cpu : Cpu) (bus : Bus) (index : Nat) : Outcome Nat :=
  let op := cpu.getOp index
  match op.mode with
  | .Register =>
    match op.register with
    | none => .err (.Exception .IllegalOpcode) cpu bus
    | some r =>
      match op.effType with
      | .Word | .UWord => .ok (cpu.r r) cpu bus
      | .Half => .ok (sign_extend_halfword (cpu.r r)) cpu bus
      | .UHalf => .ok (cpu.r r % M16) cpu bus
      | .Byte => .ok (cpu.r r % M8) cpu bus
      | .SByte => .ok (sign_extend_byte (cpu.r r)) cpu bus
      | .None => .err (.Exception .IllegalOpcode) cpu bus
  | .PositiveLiteral | .NegativeLiteral => .ok (sign_extend_byte op.embedded) cpu bus
  | .WordImmediate => .ok op.embedded cpu bus
  | .HalfwordImmediate => .ok (sign_extend_halfword op.embedded) cpu bus
  | .ByteImmediate => .ok (sign_extend_byte op.embedded) cpu bus
  | _ =>
    (cpu.effective_address bus index).bind fun eff cpu bus =>
      match op.effType with
      | .UWord | .Word => busRead (bus.read_word eff) cpu bus
      | .Half =>
        (busRead (bus.read_half eff) cpu bus).bind fun h cpu bus =>
          .ok (sign_extend_halfword h) cpu bus
      | .UHalf => busRead (bus.read_half eff) cpu bus
      | .Byte => busRead (bus.read_byte eff) cpu bus
      | .SByte =>
        (busRead (bus.read_byte eff) cpu bus).bind fun b cpu bus =>
          .ok (sign_extend_byte b) cpu bus
      | .None => .err (.Exception .IllegalOpcode) cpu bus

/-- Cpu::write_op.  On success the data field of the operand record is
set to the written value. -/
def Cpu.write_op (cpu : Cpu) (bus : Bus) (index : Nat) (val : Nat) : Outcome Unit :=
  let mode := (cpu.getOp index).mode
  let register := (cpu.getOp index).register
  let data_type := (cpu.getOp index).effType
  match mode with
  | .Register =>
    match register with
    | some r => .ok () (((cpu.setReg r val)).setOpData index val) bus
    | none => .err (.Exception .IllegalOpcode) cpu bus
  | .NegativeLiteral | .PositiveLiteral | .ByteImmediate
  | .HalfwordImmediate | .WordImmediate =>
    .err (.Exception .IllegalOpcode) cpu bus
  | _ =>
    (cpu.effective_address bus index).bind fun eff cpu bus =>
      match data_type with
      | .UWord | .Word =>
        (busWrite (bus.write_word eff val) cpu bus).bind fun _ cpu bus =>
          .ok () (cpu.setOpData index val) bus
      | .Half | .UHalf =>
        (busWrite (bus.write_half eff (val % M16)) cpu bus).bind fun _ cpu bus =>
          .ok () (cpu.setOpData index val) bus
      | .Byte | .SByte =>
        (busWrite (bus.write_byte eff (val % M8)) cpu bus).bind fun _ cpu bus =>
          .ok () (cpu.setOpData index val) bus
      | .None => .err (.Exception .IllegalOpcode) cpu bus

/-! Stack and interrupt stack helpers, from cpu.rs. -/

def Cpu.stack_push (cpu : Cpu) (bus : Bus) (val : Nat) : Outcome Unit :=
  (busWrite (bus.write_word (cpu.r R_SP) val) cpu bus).bind fun _ cpu bus =>
    .ok () (cpu.setReg R_SP ((cpu.r R_SP + 4) % M32)) bus

def Cpu.stack_pop (cpu : Cpu) (bus : Bus) : Outcome Nat :=
  (busRead (bus.read_word ((cpu.r R_SP + M32 - 4) % M32)) cpu bus).bind fun result cpu bus =>
    .ok result (cpu.setReg R_SP ((cpu.r R_SP + M32 - 4) % M32)) bus

def Cpu.irq_push (cpu : Cpu) (bus : Bus) (val : Nat) : Outcome Unit :=
  (busWrite (bus.write_word (cpu.r R_ISP) val) cpu bus).bind fun _ cpu bus =>
    .ok () (cpu.setReg R_ISP ((cpu.r R_ISP + 4) % M32)) bus

/-- Cpu::irq_pop decrements ISP before reading, so on a failed read the
decrement has already happened. -/
def Cpu.irq_pop (cpu : Cpu) (bus : Bus) : Outcome Nat :=
  let cpu := cpu.setReg R_ISP ((cpu.r R_ISP + M32 - 4) % M32)
  busRead (bus.read_word (cpu.r R_ISP)) cpu bus

/-! Arithmetic helpers, from cpu.rs. -/

/-- Cpu::add: 64-bit sum, truncated store, C from the unsigned range of
the destination width, V from the signed overflow formula. -/
def Cpu.add (cpu : Cpu) (bus : Bus) (a b : Nat) (dst : Nat) : Outcome Unit :=
  let result := (a + b) % 18446744073709551616
  (cpu.write_op bus dst (result % M32)).bind fun _ cpu bus =>
  let cpu := cpu.set_nz_flags (result % M32) dst
  match (cpu.getOp dst).effType with
  | .Word | .UWord =>
    let cpu := cpu.set_c_flag (decide (result > 0xffffffff))
    let cpu := cpu.set_v_flag (decide (((a ^^^ not32 b) &&& (a ^^^ (result % M32))) &&& 0x80000000 ≠ 0))
    .ok () cpu bus
  | .Half | .UHalf =>
    let cpu := cpu.set_c_flag (decide (result > 0xffff))
    let cpu := cpu.set_v_flag (decide (((a ^^^ not32 b) &&& (a ^^^ (result % M32))) &&& 0x8000 ≠ 0))
    .ok () cpu bus
  | .Byte | .SByte =>
    let cpu := cpu.set_c_flag (decide (result > 0xff))
    let cpu := cpu.set_v_flag (decide (((a ^^^ not32 b) &&& (a ^^^ (result % M32))) &&& 0x80 ≠ 0))
    .ok () cpu bus
  | .None => .err (.Exception .IllegalOpcode) cpu bus

/-- Cpu::sub: computes a - b with 64-bit wrapping, C set when b > a. -/
def Cpu.sub (cpu : Cpu) (bus : Bus) (a b : Nat) (dst : Nat) : Outcome Unit :=
  let result := (a + 18446744073709551616 - b % 18446744073709551616) % 18446744073709551616
  (cpu.write_op bus dst (result % M32)).bind fun _ cpu bus =>
  let cpu := cpu.set_nz_flags (result % M32) dst
  let cpu := cpu.set_c_flag (decide (b > a))
  let cpu := cpu.set_v_flag_op (result % M32) dst
  .ok () cpu bus

/-- Cpu::div: signed or unsigned division selected by the raw declared
data_type of the destination operand (the expanded type is ignored, a
quirk of the source).  Rust division panics on a zero divisor and on
most-negative divided by minus one; both are modelled by stuck. -/
def Cpu.div (cpu : Cpu) (a b : Nat) (dst : Nat) : Res Nat :=
  match (cpu.getOp dst).dataType with
  | .Word =>
    let ia := toI32 a
    let ib := toI32 b
    if ia = 0 ∨ (ib = -2147483648 ∧ ia = -1) then .stuck
    else .ok (u32ofInt (Int.tdiv ib ia))
  | .Half =>
    let ia := toI16 a
    let ib := toI16 b
    if ia = 0 ∨ (ib = -32768 ∧ ia = -1) then .stuck
    else .ok (u32ofInt (Int.tdiv ib ia))
  | .SByte =>
    let ia := toI8 a
    let ib := toI8 b
    if ia = 0 ∨ (ib = -128 ∧ ia = -1) then .stuck
    else .ok (u32ofInt (Int.tdiv ib ia))
  | .UWord => if a = 0 then .stuck else .ok (b / a)
  | .UHalf => if a % M16 = 0 then .stuck else .ok ((b % M16) / (a % M16))
  | .Byte => if a % M8 = 0 then .stuck else .ok ((b % M8) / (a % M8))
  | .None => if a = 0 then .stuck else .ok (b / a)

/-- Cpu::modulo, the remainder twin of Cpu::div, with the same panic
conditions (Rust remainder also panics on most-negative rem minus one). -/
def Cpu.modulo (cpu : Cpu) (a b : Nat) (dst : Nat) : Res Nat :=
  match (cpu.getOp dst).dataType with
  | .Word =>
    let ia := toI32 a
    let ib := toI32 b
    if ia = 0 ∨ (ib = -2147483648 ∧ ia = -1) then .stuck
    else .ok (u32ofInt (Int.tmod ib ia))
  | .Half =>
    let ia := toI16 a
    let ib := toI16 b
    if ia = 0 ∨ (ib = -32768 ∧ ia = -1) then .stuck
    else .ok (u32ofInt (Int.tmod ib ia))
  | .SByte =>
    let ia := toI8 a
    let ib := toI8 b
    if ia = 0 ∨ (ib = -128 ∧ ia = -1) then .stuck
    else .ok (u32ofInt (Int.tmod ib ia))
  | .UWord => if a = 0 then .stuck else .ok (b % a)
  | .UHalf => if a % M16 = 0 then .stuck else .ok ((b % M16) % (a % M16))
  | .Byte => if a % M8 = 0 then .stuck else .ok ((b % M8) % (a % M8))
  | .None => if a = 0 then .stuck else .ok (b % a)

/-! The context switch engine, from cpu.rs. -/

/-- Cpu::context_switch_1: save the outgoing context. -/
def Cpu.context_switch_1 (cpu : Cpu) (bus : Bus) (new_pcbp : Nat) : Outcome Unit :=
  (busWrite (bus.write_word ((cpu.r R_PCBP + 4) % M32) (cpu.r R_PC)) cpu bus).bind fun _ cpu bus =>
  (busRead (bus.read_word new_pcbp) cpu bus).bind fun npsw cpu bus =>
  let cpu := cpu.setReg R_PSW ((cpu.r R_PSW &&& not32 F_R) ||| (npsw &&& F_R))
  (busWrite (bus.write_word (cpu.r R_PCBP) (cpu.r R_PSW)) cpu bus).bind fun _ cpu bus =>
  (busWrite (bus.write_word ((cpu.r R_PCBP + 8) % M32) (cpu.r R_SP)) cpu bus).bind fun _ cpu bus =>
  if cpu.r R_PSW &&& F_R ≠ 0 then
    (busWrite (bus.write_word ((cpu.r R_PCBP + 24) % M32) (cpu.r R_FP)) cpu bus).bind fun _ cpu bus =>
    (busWrite (bus.write_word ((cpu.r R_PCBP + 28) % M32) (cpu.r 0)) cpu bus).bind fun _ cpu bus =>
    (busWrite (bus.write_word ((cpu.r R_PCBP + 32) % M32) (cpu.r 1)) cpu bus).bind fun _ cpu bus =>
    (busWrite (bus.write_word ((cpu.r R_PCBP + 36) % M32) (cpu.r 2)) cpu bus).bind fun _ cpu bus =>
    (busWrite (bus.write_word ((cpu.r R_PCBP + 40) % M32) (cpu.r 3)) cpu bus).bind fun _ cpu bus =>
    (busWrite (bus.write_word ((cpu.r R_PCBP + 44) % M32) (cpu.r 4)) cpu bus).bind fun _ cpu bus =>
    (busWrite (bus.write_word ((cpu.r R_PCBP + 48) % M32) (cpu.r 5)) cpu bus).bind fun _ cpu bus =>
    (busWrite (bus.write_word ((cpu.r R_PCBP + 52) % M32) (cpu.r 6)) cpu bus).bind fun _ cpu bus =>
    (busWrite (bus.write_word ((cpu.r R_PCBP + 56) % M32) (cpu.r 7)) cpu bus).bind fun _ cpu bus =>
    (busWrite (bus.write_word ((cpu.r R_PCBP + 60) % M32) (cpu.r 8)) cpu bus).bind fun _ cpu bus =>
    (busWrite (bus.write_word ((cpu.r R_PCBP + 20) % M32) (cpu.r R_AP)) cpu bus).bind fun _ cpu bus =>
    .ok () (cpu.setReg R_FP ((cpu.r R_PCBP + 52) % M32)) bus
  else
    .ok () cpu bus

/-- Cpu::context_switch_2: load the incoming context. -/
def Cpu.context_switch_2 (cpu : Cpu) (bus : Bus) (new_pcbp : Nat) : Outcome Unit :=
  let cpu := cpu.setReg R_PCBP new_pcbp
  (busRead (bus.read_word (cpu.r R_PCBP)) cpu bus).bind fun w cpu bus =>
  let cpu := cpu.setReg R_PSW w
  let cpu := cpu.setReg R_PSW (cpu.r R_PSW &&& not32 F_TM)
  (busRead (bus.read_word ((cpu.r R_PCBP + 4) % M32)) cpu bus).bind fun pc cpu bus =>
  let cpu := cpu.setReg R_PC pc
  (busRead (bus.read_word ((cpu.r R_PCBP + 8) % M32)) cpu bus).bind fun sp cpu bus =>
  let cpu := cpu.setReg R_SP sp
  if cpu.r R_PSW &&& F_I ≠ 0 then
    let cpu := cpu.setReg R_PSW (cpu.r R_PSW &&& not32 F_I)
    .ok () (cpu.setReg R_PCBP ((cpu.r R_PCBP + 12) % M32)) bus
  else
    .ok () cpu bus

/-- The inner word-copy loop shared by Cpu::context_switch_3 and the
MOVBLW opcode: copy R2 words from R0 to R1, advancing all three. -/
def movblw_loop (fuel : Nat) (cpu : Cpu) (bus : Bus) : Outcome Unit :=
  match fuel with
  | 0 => .stuck
  | fuel + 1 =>
    if cpu.r 2 ≠ 0 then
      (busRead (bus.read_word (cpu.r 0)) cpu bus).bind fun tmp cpu bus =>
      (busWrite (bus.write_word (cpu.r 1) tmp) cpu bus).bind fun _ cpu bus =>
      let cpu := cpu.setReg 2 (cpu.r 2 - 1)
      let cpu := cpu.setReg 0 ((cpu.r 0 + 4) % M32)
      let cpu := cpu.setReg 1 ((cpu.r 1 + 4) % M32)
      movblw_loop fuel cpu bus
    else
      .ok () cpu bus

/-- The outer loop of Cpu::context_switch_3: consume (count, dest)
pairs until count is zero. -/
def cs3_loop (fuel : Nat) (cpu : Cpu) (bus : Bus) : Outcome Unit :=
  match fuel with
  | 0 => .stuck
  | fuel + 1 =>
    if cpu.r 2 ≠ 0 then
      (busRead (bus.read_word (cpu.r 0)) cpu bus).bind fun w cpu bus =>
      let cpu := cpu.setReg 1 w
      let cpu := cpu.setReg 0 ((cpu.r 0 + 4) % M32)
      (movblw_loop fuel cpu bus).bind fun _ cpu bus =>
      (busRead (bus.read_word (cpu.r 0)) cpu bus).bind fun c cpu bus =>
      let cpu := cpu.setReg 2 c
      let cpu := cpu.setReg 0 ((cpu.r 0 + 4) % M32)
      cs3_loop fuel cpu bus
    else
      .ok () cpu bus

/-- Cpu::context_switch_3: the block-move phase, run only when the R
bit of the PSW is set; uses R0, R1, R2 as scratch. -/
def Cpu.context_switch_3 (fuel : Nat) (cpu : Cpu) (bus : Bus) : Outcome Unit :=
  if cpu.r R_PSW &&& F_R ≠ 0 then
    let cpu := cpu.setReg 0 ((cpu.r R_PCBP + 64) % M32)
    (busRead (bus.read_word (cpu.r 0)) cpu bus).bind fun c cpu bus =>
    let cpu := cpu.setReg 2 c
    let cpu := cpu.setReg 0 ((cpu.r 0 + 4) % M32)
    (cs3_loop fuel cpu bus).bind fun _ cpu bus =>
    .ok () (cpu.setReg 0 ((cpu.r 0 + 4) % M32)) bus
  else
    .ok () cpu bus

/-- Cpu::on_interrupt: every fallible call is unwrapped in the source,
so a failure is a panic (stuck), never a propagated error. -/
def Cpu.on_interrupt (fuel : Nat) (cpu : Cpu) (bus : Bus) (vector : Nat) : Outcome Unit :=
  (unwrapped (busRead (bus.read_word (0x8c + 4 * vector)) cpu bus)).bind fun new_pcbp cpu bus =>
  (unwrapped (cpu.irq_push bus (cpu.r R_PCBP))).bind fun _ cpu bus =>
  let cpu := cpu.setReg R_PSW (cpu.r R_PSW &&& not32 (F_ISC ||| F_TM ||| F_ET))
  let cpu := cpu.setReg R_PSW (cpu.r R_PSW ||| 1)
  (unwrapped (cpu.context_switch_1 bus new_pcbp)).bind fun _ cpu bus =>
  (unwrapped (cpu.context_switch_2 bus new_pcbp)).bind fun _ cpu bus =>
  let cpu := cpu.setReg R_PSW (cpu.r R_PSW &&& not32 (F_ISC ||| F_TM ||| F_ET))
  let cpu := cpu.setReg R_PSW (cpu.r R_PSW ||| (7 <<< 3))
  let cpu := cpu.setReg R_PSW (cpu.r R_PSW ||| 3)
  unwrapped (cpu.context_switch_3 fuel bus)

/-! The opcode table, from cpu.rs (the lazy MNEMONICS map).  Operand
kind lists use Lit, Src, Dest as in the source. -/

def mnemonics (op : Nat) : Option Mnemonic :=
  match op with
  | 0x00 => some ⟨0x00, .None, "halt", []⟩
  | 0x02 => some ⟨0x02, .Word, "SPOPRD", [.Lit, .Src]⟩
  | 0x03 => some ⟨0x03, .Word, "SPOPRD2", [.Lit, .Src, .Dest]⟩
  | 0x04 => some ⟨0x04, .Word, "MOVAW", [.Src, .Dest]⟩
  | 0x06 => some ⟨0x06, .Word, "SPOPRT", [.Lit, .Src]⟩
  | 0x07 => some ⟨0x07, .Word, "SPOPT2", [.Lit, .Src, .Dest]⟩
  | 0x08 => some ⟨0x08, .None, "RET", []⟩
  | 0x0C => some ⟨0x0C, .Word, "MOVTRW", [.Src, .Dest]⟩
  | 0x10 => some ⟨0x10, .Word, "SAVE", [.Src]⟩
  | 0x13 => some ⟨0x13, .Word, "SPOPWD", [.Lit, .Dest]⟩
  | 0x14 => some ⟨0x14, .Byte, "EXTOP", []⟩
  | 0x17 => some ⟨0x17, .Word, "SPOPWT", [.Lit, .Dest]⟩
  | 0x18 => some ⟨0x18, .None, "RESTORE", [.Src]⟩
  | 0x1C => some ⟨0x1C, .Word, "SWAPWI", [.Dest]⟩
  | 0x1E => some ⟨0x1E, .Half, "SWAPHI", [.Dest]⟩
  | 0x1F => some ⟨0x1F, .Byte, "SWAPBI", [.Dest]⟩
  | 0x20 => some ⟨0x20, .Word, "POPW", [.Src]⟩
  | 0x22 => some ⟨0x22, .Word, "SPOPRS", [.Lit, .Src]⟩
  | 0x23 => some ⟨0x23, .Word, "SPOPS2", [.Lit, .Src, .Dest]⟩
  | 0x24 => some ⟨0x24, .Word, "JMP", [.Dest]⟩
  | 0x27 => some ⟨0x27, .None, "CFLUSH", []⟩
  | 0x28 => some ⟨0x28, .Word, "TSTW", [.Src]⟩
  | 0x2A => some ⟨0x2A, .Half, "TSTH", [.Src]⟩
  | 0x2B => some ⟨0x2B, .Byte, "TSTB", [.Src]⟩
  | 0x2C => some ⟨0x2C, .Word, "CALL", [.Src, .Dest]⟩
  | 0x2E => some ⟨0x2E, .None, "BPT", []⟩
  | 0x2F => some ⟨0x2F, .None, "WAIT", []⟩
  | 0x32 => some ⟨0x32, .Word, "SPOP", [.Lit]⟩
  | 0x33 => some ⟨0x33, .Word, "SPOPWS", [.Lit, .Dest]⟩
  | 0x34 => some ⟨0x34, .Word, "JSB", [.Dest]⟩
  | 0x36 => some ⟨0x36, .Half, "BSBH", [.Lit]⟩
  | 0x37 => some ⟨0x37, .Byte, "BSBB", [.Lit]⟩
  | 0x38 => some ⟨0x38, .Word, "BITW", [.Src, .Src]⟩
  | 0x3A => some ⟨0x3A, .Half, "BITH", [.Src, .Src]⟩
  | 0x3B => some ⟨0x3B, .Byte, "BITB", [.Src, .Src]⟩
  | 0x3C => some ⟨0x3C, .Word, "CMPW", [.Src, .Src]⟩
  | 0x3E => some ⟨0x3E, .Half, "CMPH", [.Src, .Src]⟩
  | 0x3F => some ⟨0x3F, .Byte, "CMPB", [.Src, .Src]⟩
  | 0x40 => some ⟨0x40, .None, "RGEQ", []⟩
  | 0x42 => some ⟨0x42, .Half, "BGEH", [.Lit]⟩
  | 0x43 => some ⟨0x43, .Byte, "BGEB", [.Lit]⟩
  | 0x44 => some ⟨0x44, .None, "RGTR", []⟩
  | 0x46 => some ⟨0x46, .Half, "BGH", [.Lit]⟩
  | 0x47 => some ⟨0x47, .Byte, "BGB", [.Lit]⟩
  | 0x48 => some ⟨0x48, .None, "RLSS", []⟩
  | 0x4A => some ⟨0x4A, .Half, "BLH", [.Lit]⟩
  | 0x4B => some ⟨0x4B, .Byte, "BLB", [.Lit]⟩
  | 0x4C => some ⟨0x4C, .None, "RLEQ", []⟩
  | 0x4E => some ⟨0x4E, .Half, "BLEH", [.Lit]⟩
  | 0x4F => some ⟨0x4F, .Byte, "BLEB", [.Lit]⟩
  | 0x50 => some ⟨0x50, .None, "RGEQU", []⟩
  | 0x52 => some ⟨0x52, .Half, "BGEUH", [.Lit]⟩
  | 0x53 => some ⟨0x53, .Byte, "BGEUB", [.Lit]⟩
  | 0x54 => some ⟨0x54, .None, "RGTRU", []⟩
  | 0x56 => some ⟨0x56, .Half, "BGUH", [.Lit]⟩
  | 0x57 => some ⟨0x57, .Byte, "BGUB", [.Lit]⟩
  | 0x58 => some ⟨0x58, .None, "RLSSU", []⟩
  | 0x5A => some ⟨0x5A, .Half, "BLUH", [.Lit]⟩
  | 0x5B => some ⟨0x5B, .Byte, "BLUB", [.Lit]⟩
  | 0x5C => some ⟨0x5C, .None, "RLEQU", []⟩
  | 0x5E => some ⟨0x5E, .Half, "BLEUH", [.Lit]⟩
  | 0x5F => some ⟨0x5F, .Byte, "BLEUB", [.Lit]⟩
  | 0x60 => some ⟨0x60, .None, "RVC", []⟩
  | 0x62 => some ⟨0x62, .Half, "BVCH", [.Lit]⟩
  | 0x63 => some ⟨0x63, .Byte, "BVCB", [.Lit]⟩
  | 0x64 => some ⟨0x64, .None, "RNEQU", []⟩
  | 0x66 => some ⟨0x66, .Half, "BNEH", [.Lit]⟩
  | 0x67 => some ⟨0x67, .Byte, "BNEB", [.Lit]⟩
  | 0x68 => some ⟨0x68, .None, "RVS", []⟩
  | 0x6A => some ⟨0x6A, .Half, "BVSH", [.Lit]⟩
  | 0x6B => some ⟨0x6B, .Byte, "BVSB", [.Lit]⟩
  | 0x6C => some ⟨0x6C, .None, "REQLU", []⟩
  | 0x6E => some ⟨0x6E, .Half, "BEH", [.Lit]⟩
  | 0x6F => some ⟨0x6F, .Byte, "BEB", [.Lit]⟩
  | 0x70 => some ⟨0x70, .None, "NOP", []⟩
  | 0x72 => some ⟨0x72, .None, "NOP3", []⟩
  | 0x73 => some ⟨0x73, .None, "NOP2", []⟩
  | 0x74 => some ⟨0x74, .None, "RNEQ", []⟩
  | 0x76 => some ⟨0x76, .Half, "BNEH", [.Lit]⟩
  | 0x77 => some ⟨0x77, .Byte, "BNEB", [.Lit]⟩
  | 0x78 => some ⟨0x78, .None, "RSB", []⟩
  | 0x7A => some ⟨0x7A, .Half, "BRH", [.Lit]⟩
  | 0x7B => some ⟨0x7B, .Byte, "BRB", [.Lit]⟩
  | 0x7C => some ⟨0x7C, .None, "REQL", []⟩
  | 0x7E => some ⟨0x7E, .Half, "BEH", [.Lit]⟩
  | 0x7F => some ⟨0x7F, .Byte, "BEB", [.Lit]⟩
  | 0x80 => some ⟨0x80, .Word, "CLRW", [.Dest]⟩
  | 0x82 => some ⟨0x82, .Half, "CLRH", [.Dest]⟩
  | 0x83 => some ⟨0x83, .Byte, "CLRB", [.Dest]⟩
  | 0x84 => some ⟨0x84, .Word, "MOVW", [.Src, .Dest]⟩
  | 0x86 => some ⟨0x86, .Half, "MOVH", [.Src, .Dest]⟩
  | 0x87 => some ⟨0x87, .Byte, "MOVB", [.Src, .Dest]⟩
  | 0x88 => some ⟨0x88, .Word, "MCOMW", [.Src, .Dest]⟩
  | 0x8A => some ⟨0x8A, .Half, "MCOMH", [.Src, .Dest]⟩
  | 0x8B => some ⟨0x8B, .Byte, "MCOMB", [.Src, .Dest]⟩
  | 0x8C => some ⟨0x8C, .Word, "MNEGW", [.Src, .Dest]⟩
  | 0x8E => some ⟨0x8E, .Half, "MNEGH", [.Src, .Dest]⟩
  | 0x8F => some ⟨0x8F, .Byte, "MNEGB", [.Src, .Dest]⟩
  | 0x90 => some ⟨0x90, .Word, "INCW", [.Dest]⟩
  | 0x92 => some ⟨0x92, .Half, "INCH", [.Dest]⟩
  | 0x93 => some ⟨0x93, .Byte, "INCB", [.Dest]⟩
  | 0x94 => some ⟨0x94, .Word, "DECW", [.Dest]⟩
  | 0x96 => some ⟨0x96, .Half, "DECH", [.Dest]⟩
  | 0x97 => some ⟨0x97, .Byte, "DECB", [.Dest]⟩
  | 0x9C => some ⟨0x9C, .Word, "ADDW2", [.Src, .Dest]⟩
  | 0x9E => some ⟨0x9E, .Half, "ADDH2", [.Src, .Dest]⟩
  | 0x9F => some ⟨0x9F, .Byte, "ADDB2", [.Src, .Dest]⟩
  | 0xA0 => some ⟨0xA0, .Word, "PUSHW", [.Src]⟩
  | 0xA4 => some ⟨0xA4, .Word, "MODW2", [.Src, .Dest]⟩
  | 0xA6 => some ⟨0xA6, .Half, "MODH2", [.Src, .Dest]⟩
  | 0xA7 => some ⟨0xA7, .Byte, "MODB2", [.Src, .Dest]⟩
  | 0xA8 => some ⟨0xA8, .Word, "MULW2", [.Src, .Dest]⟩
  | 0xAA => some ⟨0xAA, .Half, "MULH2", [.Src, .Dest]⟩
  | 0xAB => some ⟨0xAB, .Byte, "MULB2", [.Src, .Dest]⟩
  | 0xAC => some ⟨0xAC, .Word, "DIVW2", [.Src, .Dest]⟩
  | 0xAE => some ⟨0xAE, .Half, "DIVH2", [.Src, .Dest]⟩
  | 0xAF => some ⟨0xAF, .Byte, "DIVB2", [.Src, .Dest]⟩
  | 0xB0 => some ⟨0xB0, .Word, "ORW2", [.Src, .Dest]⟩
  | 0xB2 => some ⟨0xB2, .Half, "ORH2", [.Src, .Dest]⟩
  | 0xB3 => some ⟨0xB3, .Byte, "ORB2", [.Src, .Dest]⟩
  | 0xB4 => some ⟨0xB4, .Word, "XORW2", [.Src, .Dest]⟩
  | 0xB6 => some ⟨0xB6, .Half, "XORH2", [.Src, .Dest]⟩
  | 0xB7 => some ⟨0xB7, .Byte, "XORB2", [.Src, .Dest]⟩
  | 0xB8 => some ⟨0xB8, .Word, "ANDW2", [.Src, .Dest]⟩
  | 0xBA => some ⟨0xBA, .Half, "ANDH2", [.Src, .Dest]⟩
  | 0xBB => some ⟨0xBB, .Byte, "ANDB2", [.Src, .Dest]⟩
  | 0xBC => some ⟨0xBC, .Word, "SUBW2", [.Src, .Dest]⟩
  | 0xBE => some ⟨0xBE, .Half, "SUBH2", [.Src, .Dest]⟩
  | 0xBF => some ⟨0xBF, .Byte, "SUBB2", [.Src, .Dest]⟩
  | 0xC0 => some ⟨0xC0, .Word, "ALSW3", [.Src, .Src, .Dest]⟩
  | 0xC4 => some ⟨0xC4, .Word, "ARSW3", [.Src, .Src, .Dest]⟩
  | 0xC6 => some ⟨0xC6, .Half, "ARSH3", [.Src, .Src, .Dest]⟩
  | 0xC7 => some ⟨0xC7, .Byte, "ARSB3", [.Src, .Src, .Dest]⟩
  | 0xC8 => some ⟨0xC8, .Word, "INSFW", [.Src, .Src, .Src, .Dest]⟩
  | 0xCA => some ⟨0xCA, .Half, "INSFH", [.Src, .Src, .Src, .Dest]⟩
  | 0xCB => some ⟨0xCB, .Byte, "INSFB", [.Src, .Src, .Src, .Dest]⟩
  | 0xCC => some ⟨0xCC, .Word, "EXTFW", [.Src, .Src, .Src, .Dest]⟩
  | 0xCE => some ⟨0xCE, .Half, "EXTFH", [.Src, .Src, .Src, .Dest]⟩
  | 0xCF => some ⟨0xCF, .Byte, "EXTFB", [.Src, .Src, .Src, .Dest]⟩
  | 0xD0 => some ⟨0xD0, .Word, "LLSW3", [.Src, .Src, .Dest]⟩
  | 0xD2 => some ⟨0xD2, .Half, "LLSH3", [.Src, .Src, .Dest]⟩
  | 0xD3 => some ⟨0xD3, .Byte, "LLSB3", [.Src, .Src, .Dest]⟩
  | 0xD4 => some ⟨0xD4, .Word, "LRSW3", [.Src, .Src, .Dest]⟩
  | 0xD8 => some ⟨0xD8, .Word, "ROTW", [.Src, .Src, .Dest]⟩
  | 0xDC => some ⟨0xDC, .Word, "ADDW3", [.Src, .Src, .Dest]⟩
  | 0xDE => some ⟨0xDE, .Half, "ADDH3", [.Src, .Src, .Dest]⟩
  | 0xDF => some ⟨0xDF, .Byte, "ADDB3", [.Src, .Src, .Dest]⟩
  | 0xE0 => some ⟨0xE0, .Word, "PUSHAW", [.Src]⟩
  | 0xE4 => some ⟨0xE4, .Word, "MODW3", [.Src, .Src, .Dest]⟩
  | 0xE6 => some ⟨0xE6, .Half, "MODH3", [.Src, .Src, .Dest]⟩
  | 0xE7 => some ⟨0xE7, .Byte, "MODB3", [.Src, .Src, .Dest]⟩
  | 0xE8 => some ⟨0xE8, .Word, "MULW3", [.Src, .Src, .Dest]⟩
  | 0xEA => some ⟨0xEA, .Half, "MULH3", [.Src, .Src, .Dest]⟩
  | 0xEB => some ⟨0xEB, .Byte, "MULB3", [.Src, .Src, .Dest]⟩
  | 0xEC => some ⟨0xEC, .Word, "DIVW3", [.Src, .Src, .Dest]⟩
  | 0xEE => some ⟨0xEE, .Half, "DIVH3", [.Src, .Src, .Dest]⟩
  | 0xEF => some ⟨0xEF, .Byte, "DIVB3", [.Src, .Src, .Dest]⟩
  | 0xF0 => some ⟨0xF0, .Word, "ORW3", [.Src, .Src, .Dest]⟩
  | 0xF2 => some ⟨0xF2, .Half, "ORH3", [.Src, .Src, .Dest]⟩
  | 0xF3 => some ⟨0xF3, .Byte, "ORB3", [.Src, .Src, .Dest]⟩
  | 0xF4 => some ⟨0xF4, .Word, "XORW3", [.Src, .Src, .Dest]⟩
  | 0xF6 => some ⟨0xF6, .Half, "XORH3", [.Src, .Src, .Dest]⟩
  | 0xF7 => some ⟨0xF7, .Byte, "XORB3", [.Src, .Src, .Dest]⟩
  | 0xF8 => some ⟨0xF8, .Word, "ANDW3", [.Src, .Src, .Dest]⟩
  | 0xFA => some ⟨0xFA, .Half, "ANDH3", [.Src, .Src, .Dest]⟩
  | 0xFB => some ⟨0xFB, .Byte, "ANDB3", [.Src, .Src, .Dest]⟩
  | 0xFC => some ⟨0xFC, .Word, "SUBW3", [.Src, .Src, .Dest]⟩
  | 0xFE => some ⟨0xFE, .Half, "SUBH3", [.Src, .Src, .Dest]⟩
  | 0xFF => some ⟨0xFF, .Byte, "SUBB3", [.Src, .Src, .Dest]⟩
  | 0x3009 => some ⟨0x3009, .None, "MVERNO", []⟩
  | 0x300d => some ⟨0x300d, .None, "ENBVJMP", []⟩
  | 0x3013 => some ⟨0x3013, .None, "DISVJMP", []⟩
  | 0x3019 => some ⟨0x3019, .None, "MOVBLW", []⟩
  | 0x301f => some ⟨0x301f, .None, "STREND", []⟩
  | 0x302f => some ⟨0x302f, .None, "INTACK", []⟩
  | 0x303f => some ⟨0x303f, .None, "STRCPY", []⟩
  | 0x3045 => some ⟨0x3045, .None, "RETG", []⟩
  | 0x3061 => some ⟨0x3061, .None, "GATE", []⟩
  | 0x30ac => some ⟨0x30ac, .None, "CALLPS", []⟩
  | 0x30c8 => some ⟨0x30c8, .None, "RETPS", []⟩
  | _ => none

/-! The operand decoder, from cpu.rs. -/

/-- Cpu::set_operand: assign the six decoded fields of one operand slot
of the instruction register.  The data field is left as it was. -/
def Cpu.set_operand (cpu : Cpu) (index size : Nat) (mode : AddrMode) (data_type : Data)
    (expanded_type : Option Data) (register : Option Nat) (embedded : Nat) : Cpu :=
  cpu.setOp index { cpu.getOp index with
    size := size, mode := mode, dataType := data_type,
    expandedType := expanded_type, register := register, embedded := embedded }

/-- Cpu::decode_literal_operand: a raw immediate of the default width
of the mnemonic, with no descriptor byte. -/
def Cpu.decode_literal_operand (cpu : Cpu) (bus : Bus) (index : Nat) (mn : Mnemonic)
    (addr : Nat) : Outcome Unit :=
  match mn.dtype with
  | .Byte =>
    (busRead (bus.read_byte addr) cpu bus).bind fun b cpu bus =>
      .ok () (cpu.set_operand index 1 .None .Byte none none b) bus
  | .Half =>
    (busRead (bus.read_half addr) cpu bus).bind fun h cpu bus =>
      .ok () (cpu.set_operand index 2 .None .Half none none h) bus
  | .Word =>
    (busRead (bus.read_word addr) cpu bus).bind fun w cpu bus =>
      .ok () (cpu.set_operand index 4 .None .Word none none w) bus
  | _ => .err (.Exception .IllegalOpcode) cpu bus

/-- Cpu::decode_descriptor_operand: parse one descriptor byte plus its
embedded data.  The dsize local is 2 on the recursive (expanded type)
call, else 1.  The fuel argument bounds the recursion depth, which the
Rust source leaves unbounded; all claims hold for any sufficient fuel. -/
def Cpu.decode_descriptor_operand (fuel : Nat) (cpu : Cpu) (bus : Bus) (index : Nat)
    (dtype : Data) (etype : Option Data) (addr : Nat) (recur : Bool) : Outcome Unit :=
  match fuel with
  | 0 => .stuck
  | fuel + 1 =>
    (busRead (bus.read_byte addr) cpu bus).bind fun descriptor_byte cpu bus =>
    let m := (descriptor_byte &&& 0xf0) >>> 4
    let r := descriptor_byte &&& 0xf
    let dsize : Nat := if recur then 2 else 1
    match m with
    | 0 | 1 | 2 | 3 =>
      .ok () (cpu.set_operand index dsize .PositiveLiteral dtype etype none descriptor_byte) bus
    | 4 =>
      match r with
      | 15 =>
        (busRead (bus.read_word (addr + 1)) cpu bus).bind fun w cpu bus =>
          .ok () (cpu.set_operand index (dsize + 4) .WordImmediate dtype etype none w) bus
      | _ =>
        .ok () (cpu.set_operand index dsize .Register dtype etype (some r) 0) bus
    | 5 =>
      match r with
      | 15 =>
        (busRead (bus.read_half (addr + 1)) cpu bus).bind fun h cpu bus =>
          .ok () (cpu.set_operand index (dsize + 2) .HalfwordImmediate dtype etype none h) bus
      | 11 => .err (.Exception .IllegalOpcode) cpu bus
      | _ =>
        .ok () (cpu.set_operand index dsize .RegisterDeferred dtype etype (some r) 0) bus
    | 6 =>
      match r with
      | 15 =>
        (busRead (bus.read_byte (addr + 1)) cpu bus).bind fun b cpu bus =>
          .ok () (cpu.set_operand index (dsize + 1) .ByteImmediate dtype etype none b) bus
      | _ =>
        .ok () (cpu.set_operand index dsize .FPShortOffset dtype etype (some R_FP) r) bus
    | 7 =>
      match r with
      | 15 =>
        (busRead (bus.read_word (addr + 1)) cpu bus).bind fun w cpu bus =>
          .ok () (cpu.set_operand index (dsize + 4) .Absolute dtype etype none w) bus
      | _ =>
        .ok () (cpu.set_operand index dsize .APShortOffset dtype etype (some R_AP) r) bus
    | 8 =>
      match r with
      | 11 => .err (.Exception .IllegalOpcode) cpu bus
      | _ =>
        (busRead (bus.read_word (addr + 1)) cpu bus).bind fun disp cpu bus =>
          .ok () (cpu.set_operand index (dsize + 4) .WordDisplacement dtype etype (some r) disp) bus
    | 9 =>
      match r with
      | 11 => .err (.Exception .IllegalOpcode) cpu bus
      | _ =>
        (busRead (bus.read_word (addr + 1)) cpu bus).bind fun disp cpu bus =>
          .ok () (cpu.set_operand index (dsize + 4) .WordDisplacementDeferred dtype etype (some r) disp) bus
    | 10 =>
      match r with
      | 11 => .err (.Exception .IllegalOpcode) cpu bus
      | _ =>
        (busRead (bus.read_half (addr + 1)) cpu bus).bind fun disp cpu bus =>
          .ok () (cpu.set_operand index (dsize + 2) .HalfwordDisplacement dtype etype (some r) disp) bus
    | 11 =>
      match r with
      | 11 => .err (.Exception .IllegalOpcode) cpu bus
      | _ =>
        (busRead (bus.read_half (addr + 1)) cpu bus).bind fun disp cpu bus =>
          .ok () (cpu.set_operand index (dsize + 2) .HalfwordDisplacementDeferred dtype etype (some r) disp) bus
    | 12 =>
      match r with
      | 11 => .err (.Exception .IllegalOpcode) cpu bus
      | _ =>
        (busRead (bus.read_byte (addr + 1)) cpu bus).bind fun disp cpu bus =>
          .ok () (cpu.set_operand index (dsize + 1) .ByteDisplacement dtype etype (some r) disp) bus
    | 13 =>
      match r with
      | 11 => .err (.Exception .IllegalOpcode) cpu bus
      | _ =>
        (busRead (bus.read_byte (addr + 1)) cpu bus).bind fun disp cpu bus =>
          .ok () (cpu.set_operand index (dsize + 1) .ByteDisplacementDeferred dtype etype (some r) disp) bus
    | 14 =>
      match r with
      | 0 => cpu.decode_descriptor_operand fuel bus index dtype (some .UWord) (addr + 1) true
      | 2 => cpu.decode_descriptor_operand fuel bus index dtype (some .UHalf) (addr + 1) true
      | 3 => cpu.decode_descriptor_operand fuel bus index dtype (some .Byte) (addr + 1) true
      | 4 => cpu.decode_descriptor_operand fuel bus index dtype (some .Word) (addr + 1) true
      | 6 => cpu.decode_descriptor_operand fuel bus index dtype (some .Half) (addr + 1) true
      | 7 => cpu.decode_descriptor_operand fuel bus index dtype (some .SByte) (addr + 1) true
      | 15 =>
        (busRead (bus.read_word (addr + 1)) cpu bus).bind fun w cpu bus =>
          .ok () (cpu.set_operand index (dsize + 4) .AbsoluteDeferred dtype etype none w) bus
      | _ => .err (.Exception .IllegalOpcode) cpu bus
    | _ =>
      .ok () (cpu.set_operand index 1 .NegativeLiteral dtype etype none descriptor_byte) bus

/-- Cpu::decode_operand: select the literal or the descriptor path. -/
def Cpu.decode_operand (fuel : Nat) (cpu : Cpu) (bus : Bus) (index : Nat) (mn : Mnemonic)
    (ot : OpType) (etype : Option Data) (addr : Nat) : Outcome Unit :=
  match ot with
  | .Lit => cpu.decode_literal_operand bus index mn addr
  | .Src | .Dest => cpu.decode_descriptor_operand fuel bus index mn.dtype etype addr false

/-- The operand loop of Cpu::decode_instruction: decode each operand in
turn, threading the expanded type of the previous operand and advancing
the stream address by the recorded size.  Returns the final address. -/
def decode_ops (fuel : Nat) (cpu : Cpu) (bus : Bus) (mn : Mnemonic) (ops : List OpType)
    (index : Nat) (etype : Option Data) (addr : Nat) : Outcome Nat :=
  match ops with
  | [] => .ok addr cpu bus
  | ot :: rest =>
    (cpu.decode_operand fuel bus index mn ot etype addr).bind fun _ cpu bus =>
    decode_ops fuel cpu bus mn rest (index + 1) ((cpu.getOp index).expandedType)
      (addr + (cpu.getOp index).size)

/-- Cpu::decode_instruction: fetch the opcode (one byte, or two when the
first byte is 0x30), look it up, decode the operands and fill the
instruction register. -/
def Cpu.decode_instruction (fuel : Nat) (cpu : Cpu) (bus : Bus) : Outcome Unit :=
  let initial_addr := cpu.r R_PC
  (busRead (bus.read_byte initial_addr) cpu bus).bind fun b1 cpu bus =>
  (if b1 = 0x30 then
    (busRead (bus.read_byte (initial_addr + 1)) cpu bus).bind fun b2 cpu bus =>
      .ok ((b1 <<< 8) ||| b2, initial_addr + 2) cpu bus
  else
    .ok (b1, initial_addr + 1) cpu bus).bind fun idx_addr cpu bus =>
  match mnemonics idx_addr.1 with
  | some mn =>
    (decode_ops fuel cpu bus mn mn.ops 0 none idx_addr.2).bind fun end_addr cpu bus =>
    let total_bytes := end_addr - initial_addr
    .ok () { cpu with ir := { cpu.ir with
      opcode := mn.opcode, name := mn.name, dataType := mn.dtype,
      bytes := total_bytes, operandCount := mn.ops.length } } bus
  | none => .err (.Exception .IllegalOpcode) cpu bus

/-! The executor, from Cpu::dispatch in cpu.rs.  Opcode numbers replace
the named constants of crate::instr (that file is not under src; the
numbers are fixed by the opcode table above). -/

/-- u32::rotate_right. -/
def rotr32 (b a : Nat) : Nat := ((b >>> a) ||| (b <<< ((32 - a) % 32))) % M32

/-- The STREND loop: advance R0 until it points at a zero byte. -/
def strend_loop (fuel : Nat) (cpu : Cpu) (bus : Bus) : Outcome Unit :=
  match fuel with
  | 0 => .stuck
  | fuel + 1 =>
    (busRead (bus.read_byte (cpu.r 0)) cpu bus).bind fun b cpu bus =>
    if b ≠ 0 then
      strend_loop fuel (cpu.setReg 0 ((cpu.r 0 + 1) % M32)) bus
    else
      .ok () cpu bus

/-- The RESTORE loop: reload registers r, r+1, ... up to (not
including) FP from successive words.  It runs at most nine times, so a
fuel of nine always suffices and is what the executor passes. -/
def restore_loop (fuel : Nat) (cpu : Cpu) (bus : Bus) (r c : Nat) : Outcome Unit :=
  match fuel with
  | 0 => .stuck
  | fuel + 1 =>
    if r < R_FP then
      (busRead (bus.read_word c) cpu bus).bind fun w cpu bus =>
      restore_loop fuel (cpu.setReg r w) bus (r + 1) ((c + 4) % M32)
    else
      .ok () cpu bus

/-- The SAVE loop: store registers r, r+1, ... up to (not including)
FP at successive stack offsets. -/
def save_loop (fuel : Nat) (cpu : Cpu) (bus : Bus) (r stack_offset : Nat) : Outcome Unit :=
  match fuel with
  | 0 => .stuck
  | fuel + 1 =>
    if r < R_FP then
      (busWrite (bus.write_word (cpu.r R_SP + stack_offset) (cpu.r r)) cpu bus).bind fun _ cpu bus =>
      save_loop fuel cpu bus (r + 1) (stack_offset + 4)
    else
      .ok () cpu bus

/-- The per-opcode execution switch of Cpu::dispatch, entered after a
successful decode.  Returns the signed PC increment. -/
def execute_instr (fuel : Nat) (cpu : Cpu) (bus : Bus) : Outcome Int :=
  let pc_increment : Int := (cpu.ir.bytes : Int)
  match cpu.ir.opcode with
  | 0x70 => .ok 1 cpu bus
  | 0x73 => .ok 2 cpu bus
  | 0x72 => .ok 3 cpu bus
  | 0x9C | 0x9E | 0x9F =>
    (cpu.read_op bus 0).bind fun a cpu bus =>
    (cpu.read_op bus 1).bind fun b cpu bus =>
    (cpu.add bus a b 1).bind fun _ cpu bus =>
    .ok pc_increment cpu bus
  | 0xDC | 0xDE | 0xDF =>
    (cpu.read_op bus 0).bind fun a cpu bus =>
    (cpu.read_op bus 1).bind fun b cpu bus =>
    (cpu.add bus a b 2).bind fun _ cpu bus =>
    .ok pc_increment cpu bus
  | 0xC0 =>
    (cpu.read_op bus 0).bind fun a cpu bus =>
    (cpu.read_op bus 1).bind fun b cpu bus =>
    let result := b <<< (a &&& 0x1f)
    (cpu.write_op bus 2 (result % M32)).bind fun _ cpu bus =>
    let cpu := cpu.set_nz_flags (result % M32) 2
    let cpu := cpu.set_c_flag false
    let cpu := cpu.set_v_flag_op (result % M32) 2
    .ok pc_increment cpu bus
  | 0xB8 | 0xBA | 0xBB =>
    (cpu.read_op bus 0).bind fun a cpu bus =>
    (cpu.read_op bus 1).bind fun b cpu bus =>
    let result := a &&& b
    (cpu.write_op bus 1 result).bind fun _ cpu bus =>
    let cpu := cpu.set_nz_flags result 1
    let cpu := cpu.set_c_flag false
    let cpu := cpu.set_v_flag_op result 1
    .ok pc_increment cpu bus
  | 0xF8 | 0xFA | 0xFB =>
    (cpu.read_op bus 0).bind fun a cpu bus =>
    (cpu.read_op bus 1).bind fun b cpu bus =>
    let result := a &&& b
    (cpu.write_op bus 2 result).bind fun _ cpu bus =>
    let cpu := cpu.set_nz_flags result 2
    let cpu := cpu.set_c_flag false
    let cpu := cpu.set_v_flag_op result 2
    .ok pc_increment cpu bus
  | 0x6E | 0x7E =>
    if cpu.z_flag then .ok (toI32 (sign_extend_halfword (cpu.getOp 0).embedded)) cpu bus
    else .ok pc_increment cpu bus
  | 0x6F | 0x7F =>
    if cpu.z_flag then .ok (toI32 (sign_extend_byte (cpu.getOp 0).embedded)) cpu bus
    else .ok pc_increment cpu bus
  | 0x46 =>
    if !(cpu.n_flag || cpu.z_flag) then .ok (toI32 (sign_extend_halfword (cpu.getOp 0).embedded)) cpu bus
    else .ok pc_increment cpu bus
  | 0x47 =>
    if !(cpu.n_flag || cpu.z_flag) then .ok (toI32 (sign_extend_byte (cpu.getOp 0).embedded)) cpu bus
    else .ok pc_increment cpu bus
  | 0x42 =>
    if !cpu.n_flag || cpu.z_flag then .ok (toI32 (sign_extend_halfword (cpu.getOp 0).embedded)) cpu bus
    else .ok pc_increment cpu bus
  | 0x43 =>
    if !cpu.n_flag || cpu.z_flag then .ok (toI32 (sign_extend_byte (cpu.getOp 0).embedded)) cpu bus
    else .ok pc_increment cpu bus
  | 0x52 =>
    if !cpu.c_flag then .ok (toI32 (sign_extend_halfword (cpu.getOp 0).embedded)) cpu bus
    else .ok pc_increment cpu bus
  | 0x53 =>
    if !cpu.c_flag then .ok (toI32 (sign_extend_byte (cpu.getOp 0).embedded)) cpu bus
    else .ok pc_increment cpu bus
  | 0x56 =>
    if !(cpu.c_flag || cpu.z_flag) then .ok (toI32 (sign_extend_halfword (cpu.getOp 0).embedded)) cpu bus
    else .ok pc_increment cpu bus
  | 0x57 =>
    if !(cpu.c_flag || cpu.z_flag) then .ok (toI32 (sign_extend_byte (cpu.getOp 0).embedded)) cpu bus
    else .ok pc_increment cpu bus
  | 0x38 | 0x3A | 0x3B =>
    (cpu.read_op bus 0).bind fun a cpu bus =>
    (cpu.read_op bus 1).bind fun b cpu bus =>
    let result := a &&& b
    let cpu := cpu.set_nz_flags result 1
    let cpu := cpu.set_c_flag false
    let cpu := cpu.set_v_flag false
    .ok pc_increment cpu bus
  | 0x4A =>
    if cpu.n_flag && !cpu.z_flag then .ok (toI32 (sign_extend_halfword (cpu.getOp 0).embedded)) cpu bus
    else .ok pc_increment cpu bus
  | 0x4B =>
    if cpu.n_flag && !cpu.z_flag then .ok (toI32 (sign_extend_byte (cpu.getOp 0).embedded)) cpu bus
    else .ok pc_increment cpu bus
  | 0x4E =>
    if cpu.n_flag || cpu.z_flag then .ok (toI32 (sign_extend_halfword (cpu.getOp 0).embedded)) cpu bus
    else .ok pc_increment cpu bus
  | 0x4F =>
    if cpu.n_flag || cpu.z_flag then .ok (toI32 (sign_extend_byte (cpu.getOp 0).embedded)) cpu bus
    else .ok pc_increment cpu bus
  | 0x5E =>
    if cpu.c_flag || cpu.z_flag then .ok (toI32 (sign_extend_halfword (cpu.getOp 0).embedded)) cpu bus
    else .ok pc_increment cpu bus
  | 0x5F =>
    if cpu.c_flag || cpu.z_flag then .ok (toI32 (sign_extend_byte (cpu.getOp 0).embedded)) cpu bus
    else .ok pc_increment cpu bus
  | 0x5A =>
    if cpu.c_flag then .ok (toI32 (sign_extend_halfword (cpu.getOp 0).embedded)) cpu bus
    else .ok pc_increment cpu bus
  | 0x5B =>
    if cpu.c_flag then .ok (toI32 (sign_extend_byte (cpu.getOp 0).embedded)) cpu bus
    else .ok pc_increment cpu bus
  | 0x66 | 0x76 =>
    if !cpu.z_flag then .ok (toI32 (sign_extend_halfword (cpu.getOp 0).embedded)) cpu bus
    else .ok pc_increment cpu bus
  | 0x67 | 0x77 =>
    if !cpu.z_flag then .ok (toI32 (sign_extend_byte (cpu.getOp 0).embedded)) cpu bus
    else .ok pc_increment cpu bus
  | 0x2E | 0x00 => .stuck
  | 0x7A => .ok (toI32 (sign_extend_halfword (cpu.getOp 0).embedded)) cpu bus
  | 0x7B => .ok (toI32 (sign_extend_byte (cpu.getOp 0).embedded)) cpu bus
  | 0x36 =>
    let offset := toI32 (sign_extend_halfword (cpu.getOp 0).embedded)
    let return_pc := pcAdd (cpu.r R_PC) pc_increment
    (cpu.stack_push bus return_pc).bind fun _ cpu bus =>
    .ok offset cpu bus
  | 0x37 =>
    let offset := toI32 (sign_extend_byte (cpu.getOp 0).embedded)
    let return_pc := pcAdd (cpu.r R_PC) pc_increment
    (cpu.stack_push bus return_pc).bind fun _ cpu bus =>
    .ok offset cpu bus
  | 0x62 =>
    if !cpu.v_flag then .ok (toI32 (sign_extend_halfword (cpu.getOp 0).embedded)) cpu bus
    else .ok pc_increment cpu bus
  | 0x63 =>
    if !cpu.v_flag then .ok (toI32 (sign_extend_byte (cpu.getOp 0).embedded)) cpu bus
    else .ok pc_increment cpu bus
  | 0x6A =>
    if cpu.v_flag then .ok (toI32 (sign_extend_halfword (cpu.getOp 0).embedded)) cpu bus
    else .ok pc_increment cpu bus
  | 0x6B =>
    if cpu.v_flag then .ok (toI32 (sign_extend_byte (cpu.getOp 0).embedded)) cpu bus
    else .ok pc_increment cpu bus
  | 0x2C =>
    (cpu.effective_address bus 0).bind fun a cpu bus =>
    (cpu.effective_address bus 1).bind fun b cpu bus =>
    let return_pc := pcAdd (cpu.r R_PC) pc_increment
    (busWrite (bus.write_word ((cpu.r R_SP + 4) % M32) (cpu.r R_AP)) cpu bus).bind fun _ cpu bus =>
    (busWrite (bus.write_word (cpu.r R_SP) return_pc) cpu bus).bind fun _ cpu bus =>
    let cpu := cpu.setReg R_SP ((cpu.r R_SP + 8) % M32)
    let cpu := cpu.setReg R_PC b
    let cpu := cpu.setReg R_AP a
    .ok 0 cpu bus
  | 0x27 => .ok pc_increment cpu bus
  | 0x30ac =>
    match cpu.priv_level with
    | .Kernel =>
      let a := cpu.r 0
      let cpu := { cpu with errorContext := .ResetIntStack }
      (cpu.irq_push bus (cpu.r R_PCBP)).bind fun _ cpu bus =>
      let cpu := cpu.setReg R_PC ((cpu.r R_PC + 2) % M32)
      let cpu := cpu.setReg R_PSW (cpu.r R_PSW &&& not32 (F_ISC ||| F_TM ||| F_ET))
      let cpu := cpu.setReg R_PSW (cpu.r R_PSW ||| (1 <<< O_ET))
      (cpu.context_switch_1 bus a).bind fun _ cpu bus =>
      (cpu.context_switch_2 bus a).bind fun _ cpu bus =>
      let cpu := cpu.setReg R_PSW (cpu.r R_PSW &&& not32 (F_ISC ||| F_TM ||| F_ET))
      let cpu := cpu.setReg R_PSW (cpu.r R_PSW ||| (7 <<< O_ISC))
      let cpu := cpu.setReg R_PSW (cpu.r R_PSW ||| (3 <<< O_ET))
      (cpu.context_switch_3 fuel bus).bind fun _ cpu bus =>
      .ok 0 { cpu with errorContext := .None } bus
    | _ => .err (.Exception .PrivilegedOpcode) cpu bus
  | 0x80 | 0x82 | 0x83 =>
    (cpu.write_op bus 0 0).bind fun _ cpu bus =>
    let cpu := cpu.set_n_flag false
    let cpu := cpu.set_z_flag true
    let cpu := cpu.set_c_flag false
    let cpu := cpu.set_v_flag false
    .ok pc_increment cpu bus
  | 0x3C =>
    (cpu.read_op bus 0).bind fun a cpu bus =>
    (cpu.read_op bus 1).bind fun b cpu bus =>
    let cpu := cpu.set_z_flag (decide (b = a))
    let cpu := cpu.set_n_flag (decide (toI32 b < toI32 a))
    let cpu := cpu.set_c_flag (decide (b < a))
    let cpu := cpu.set_v_flag false
    .ok pc_increment cpu bus
  | 0x3E =>
    (cpu.read_op bus 0).bind fun a cpu bus =>
    (cpu.read_op bus 1).bind fun b cpu bus =>
    let cpu := cpu.set_z_flag (decide (b % M16 = a % M16))
    let cpu := cpu.set_n_flag (decide (toI16 b < toI16 a))
    let cpu := cpu.set_c_flag (decide (b % M16 < a % M16))
    let cpu := cpu.set_v_flag false
    .ok pc_increment cpu bus
  | 0x3F =>
    (cpu.read_op bus 0).bind fun a cpu bus =>
    (cpu.read_op bus 1).bind fun b cpu bus =>
    let cpu := cpu.set_z_flag (decide (b % M8 = a % M8))
    let cpu := cpu.set_n_flag (decide (toI8 b < toI8 a))
    let cpu := cpu.set_c_flag (decide (b % M8 < a % M8))
    let cpu := cpu.set_v_flag false
    .ok pc_increment cpu bus
  | 0x94 | 0x96 | 0x97 =>
    (cpu.read_op bus 0).bind fun a cpu bus =>
    (cpu.sub bus a 1 0).bind fun _ cpu bus =>
    .ok pc_increment cpu bus
  | 0xAC =>
    (cpu.read_op bus 0).bind fun a cpu bus =>
    (cpu.read_op bus 1).bind fun b cpu bus =>
    if a = 0 then .err (.Exception .IntegerZeroDivide) cpu bus
    else
      let cpu := if a = 0xffffffff ∧ b = 0x80000000 then cpu.set_v_flag true else cpu
      match cpu.div a b 1 with
      | .ok result =>
        (cpu.write_op bus 1 result).bind fun _ cpu bus =>
        let cpu := cpu.set_nz_flags result 1
        let cpu := cpu.set_c_flag false
        .ok pc_increment cpu bus
      | .err e => .err e cpu bus
      | .stuck => .stuck
  | 0xAE =>
    (cpu.read_op bus 0).bind fun a cpu bus =>
    (cpu.read_op bus 1).bind fun b cpu bus =>
    if a = 0 then .err (.Exception .IntegerZeroDivide) cpu bus
    else
      let cpu := if a = 0xffff ∧ b = 0x8000 then cpu.set_v_flag true else cpu
      match cpu.div a b 1 with
      | .ok result =>
        (cpu.write_op bus 1 result).bind fun _ cpu bus =>
        let cpu := cpu.set_nz_flags result 1
        let cpu := cpu.set_c_flag false
        .ok pc_increment cpu bus
      | .err e => .err e cpu bus
      | .stuck => .stuck
  | 0xAF =>
    (cpu.read_op bus 0).bind fun a cpu bus =>
    (cpu.read_op bus 1).bind fun b cpu bus =>
    if a = 0 then .err (.Exception .IntegerZeroDivide) cpu bus
    else
      let cpu := if a = 0xff ∧ b = 0x80 then cpu.set_v_flag true else cpu
      match cpu.div a b 1 with
      | .ok result =>
        (cpu.write_op bus 1 result).bind fun _ cpu bus =>
        let cpu := cpu.set_nz_flags result 1
        let cpu := cpu.set_c_flag false
        .ok pc_increment cpu bus
      | .err e => .err e cpu bus
      | .stuck => .stuck
  | 0xEC =>
    (cpu.read_op bus 0).bind fun a cpu bus =>
    (cpu.read_op bus 1).bind fun b cpu bus =>
    if a = 0 then .err (.Exception .IntegerZeroDivide) cpu bus
    else
      let cpu := if a = 0xffffffff ∧ b = 0x80000000 then cpu.set_v_flag true else cpu
      match cpu.div a b 1 with
      | .ok result =>
        (cpu.write_op bus 2 result).bind fun _ cpu bus =>
        let cpu := cpu.set_nz_flags result 2
        let cpu := cpu.set_c_flag false
        .ok pc_increment cpu bus
      | .err e => .err e cpu bus
      | .stuck => .stuck
  | 0xEE =>
    (cpu.read_op bus 0).bind fun a cpu bus =>
    (cpu.read_op bus 1).bind fun b cpu bus =>
    if a = 0 then .err (.Exception .IntegerZeroDivide) cpu bus
    else
      let cpu := if a = 0xffff ∧ b = 0x8000 then cpu.set_v_flag true else cpu
      match cpu.div a b 1 with
      | .ok result =>
        (cpu.write_op bus 2 result).bind fun _ cpu bus =>
        let cpu := cpu.set_nz_flags result 2
        let cpu := cpu.set_c_flag false
        .ok pc_increment cpu bus
      | .err e => .err e cpu bus
      | .stuck => .stuck
  | 0xEF =>
    (cpu.read_op bus 0).bind fun a cpu bus =>
    (cpu.read_op bus 1).bind fun b cpu bus =>
    if a = 0 then .err (.Exception .IntegerZeroDivide) cpu bus
    else
      let cpu := if a = 0xff ∧ b = 0x80 then cpu.set_v_flag true else cpu
      match cpu.div a b 1 with
      | .ok result =>
        (cpu.write_op bus 2 result).bind fun _ cpu bus =>
        let cpu := cpu.set_nz_flags result 2
        let cpu := cpu.set_c_flag false
        .ok pc_increment cpu bus
      | .err e => .err e cpu bus
      | .stuck => .stuck
  | 0x3009 =>
    .ok pc_increment (cpu.setReg 0 WE32100_VERSION) bus
  | 0x300d =>
    match cpu.priv_level with
    | .Kernel => .ok 0 (cpu.setReg R_PC (cpu.r 0)) bus
    | _ => .err (.Exception .PrivilegedOpcode) cpu bus
  | 0x3013 =>
    match cpu.priv_level with
    | .Kernel => .ok 0 (cpu.setReg R_PC (cpu.r 0)) bus
    | _ => .err (.Exception .PrivilegedOpcode) cpu bus
  | 0xCC | 0xCE | 0xCF =>
    (cpu.read_op bus 0).bind fun w0 cpu bus =>
    let width := (w0 &&& 0x1f) + 1
    (cpu.read_op bus 1).bind fun w1 cpu bus =>
    let offset := w1 &&& 0x1f
    let mask := if width ≥ 32 then 0xffffffff else (1 <<< width) - 1
    let mask := (mask <<< offset) % M32
    let mask := if width + offset > 32 then mask ||| (1 <<< (width + offset - 32 - 1)) else mask
    (cpu.read_op bus 2).bind fun a cpu bus =>
    let a := (a &&& mask) >>> offset
    (cpu.write_op bus 3 a).bind fun _ cpu bus =>
    let cpu := cpu.set_nz_flags a 3
    let cpu := cpu.set_c_flag false
    let cpu := cpu.set_v_flag_op a 3
    .ok pc_increment cpu bus
  | 0x90 | 0x92 | 0x93 =>
    (cpu.read_op bus 0).bind fun a cpu bus =>
    (cpu.add bus a 1 0).bind fun _ cpu bus =>
    .ok pc_increment cpu bus
  | 0xC8 | 0xCA | 0xCB =>
    (cpu.read_op bus 0).bind fun w0 cpu bus =>
    let width := (w0 &&& 0x1f) + 1
    (cpu.read_op bus 1).bind fun w1 cpu bus =>
    let offset := w1 &&& 0x1f
    let mask := if width ≥ 32 then 0xffffffff else (1 <<< width) - 1
    (cpu.read_op bus 2).bind fun a0 cpu bus =>
    let a := a0 &&& mask
    (cpu.read_op bus 3).bind fun b0 cpu bus =>
    let b := b0 &&& not32 ((mask <<< offset) % M32)
    let b := b ||| ((a <<< offset) % M32)
    (cpu.write_op bus 3 b).bind fun _ cpu bus =>
    let cpu := cpu.set_nz_flags b 3
    let cpu := cpu.set_c_flag false
    let cpu := cpu.set_v_flag_op b 3
    .ok pc_increment cpu bus
  | 0x24 =>
    (cpu.effective_address bus 0).bind fun a cpu bus =>
    .ok 0 (cpu.setReg R_PC a) bus
  | 0x34 =>
    (cpu.stack_push bus (pcAdd (cpu.r R_PC) pc_increment)).bind fun _ cpu bus =>
    (cpu.effective_address bus 0).bind fun a cpu bus =>
    .ok 0 (cpu.setReg R_PC a) bus
  | 0xD0 | 0xD2 | 0xD3 =>
    (cpu.read_op bus 1).bind fun a cpu bus =>
    (cpu.read_op bus 0).bind fun b0 cpu bus =>
    let b := b0 &&& 0x1f
    let result := (a <<< b) % M32
    (cpu.write_op bus 2 result).bind fun _ cpu bus =>
    let cpu := cpu.set_nz_flags result 2
    let cpu := cpu.set_c_flag false
    let cpu := cpu.set_v_flag_op result 2
    .ok pc_increment cpu bus
  | 0xC4 | 0xC6 | 0xC7 =>
    (cpu.read_op bus 1).bind fun a cpu bus =>
    (cpu.read_op bus 0).bind fun b0 cpu bus =>
    let b := b0 &&& 0x1f
    let result :=
      match (cpu.getOp 0).effType with
      | .Word => u32ofInt (Int.fdiv (toI32 a) (2 ^ b))
      | .UWord => a >>> b
      | .Half => u32ofInt (Int.fdiv (toI16 a) (2 ^ (b % 16)))
      | .UHalf => (a % M16) >>> (b % 16)
      | .Byte => (a % M8) >>> (b % 8)
      | .SByte => u32ofInt (Int.fdiv (toI8 a) (2 ^ (b % 8)))
      | .None => 0
    (cpu.write_op bus 2 result).bind fun _ cpu bus =>
    let cpu := cpu.set_nz_flags result 2
    let cpu := cpu.set_c_flag false
    let cpu := cpu.set_v_flag false
    .ok pc_increment cpu bus
  | 0xD4 =>
    (cpu.read_op bus 1).bind fun a cpu bus =>
    (cpu.read_op bus 0).bind fun b0 cpu bus =>
    let b := b0 &&& 0x1f
    let result := a >>> b
    (cpu.write_op bus 2 result).bind fun _ cpu bus =>
    let cpu := cpu.set_nz_flags result 2
    let cpu := cpu.set_c_flag false
    let cpu := cpu.set_v_flag_op result 2
    .ok pc_increment cpu bus
  | 0x88 | 0x8A | 0x8B =>
    (cpu.read_op bus 0).bind fun a cpu bus =>
    let result := not32 a
    (cpu.write_op bus 1 result).bind fun _ cpu bus =>
    let cpu := cpu.set_nz_flags result 1
    let cpu := cpu.set_c_flag false
    let cpu := cpu.set_v_flag_op result 1
    .ok pc_increment cpu bus
  | 0x8C | 0x8E | 0x8F =>
    (cpu.read_op bus 0).bind fun a cpu bus =>
    let result := (not32 a + 1) % M32
    (cpu.write_op bus 1 result).bind fun _ cpu bus =>
    let cpu := cpu.set_nz_flags result 1
    let cpu := cpu.set_c_flag false
    let cpu := cpu.set_v_flag_op result 1
    .ok pc_increment cpu bus
  | 0x3019 =>
    (movblw_loop fuel cpu bus).bind fun _ cpu bus =>
    .ok pc_increment cpu bus
  | 0x301f =>
    (strend_loop fuel cpu bus).bind fun _ cpu bus =>
    .ok pc_increment cpu bus
  | 0x1C | 0x1E | 0x1F =>
    (cpu.read_op bus 0).bind fun a cpu bus =>
    (cpu.write_op bus 0 (cpu.r 0)).bind fun _ cpu bus =>
    let cpu := cpu.setReg 0 a
    let cpu := cpu.set_n_flag (decide (toI32 a < 0))
    let cpu := cpu.set_z_flag (decide (a = 0))
    let cpu := cpu.set_c_flag false
    let cpu := cpu.set_v_flag false
    .ok pc_increment cpu bus
  | 0xD8 =>
    (cpu.read_op bus 0).bind fun a0 cpu bus =>
    let a := a0 &&& 0x1f
    (cpu.read_op bus 1).bind fun b cpu bus =>
    let result := rotr32 b a
    (cpu.write_op bus 2 result).bind fun _ cpu bus =>
    let cpu := cpu.set_nz_flags result 2
    let cpu := cpu.set_c_flag false
    let cpu := cpu.set_v_flag false
    .ok pc_increment cpu bus
  | 0x04 =>
    (cpu.effective_address bus 0).bind fun result cpu bus =>
    (cpu.write_op bus 1 result).bind fun _ cpu bus =>
    .ok pc_increment cpu bus
  | 0x87 | 0x86 | 0x84 =>
    (cpu.read_op bus 0).bind fun val cpu bus =>
    (cpu.write_op bus 1 val).bind fun _ cpu bus =>
    let cpu := cpu.set_nz_flags val 1
    let cpu := cpu.set_c_flag false
    let cpu := cpu.set_v_flag_op val 1
    .ok pc_increment cpu bus
  | 0xA4 | 0xA6 | 0xA7 =>
    (cpu.read_op bus 0).bind fun a cpu bus =>
    (cpu.read_op bus 1).bind fun b cpu bus =>
    if a = 0 then .err (.Exception .IntegerZeroDivide) cpu bus
    else
      match cpu.modulo a b 1 with
      | .ok result =>
        (cpu.write_op bus 1 result).bind fun _ cpu bus =>
        let cpu := cpu.set_nz_flags result 1
        let cpu := cpu.set_c_flag false
        let cpu := cpu.set_v_flag_op result 1
        .ok pc_increment cpu bus
      | .err e => .err e cpu bus
      | .stuck => .stuck
  | 0xE4 | 0xE6 | 0xE7 =>
    (cpu.read_op bus 0).bind fun a cpu bus =>
    (cpu.read_op bus 1).bind fun b cpu bus =>
    if a = 0 then .err (.Exception .IntegerZeroDivide) cpu bus
    else
      match cpu.modulo a b 1 with
      | .ok result =>
        (cpu.write_op bus 2 result).bind fun _ cpu bus =>
        let cpu := cpu.set_nz_flags result 2
        let cpu := cpu.set_c_flag false
        let cpu := cpu.set_v_flag_op result 2
        .ok pc_increment cpu bus
      | .err e => .err e cpu bus
      | .stuck => .stuck
  | 0xA8 | 0xAA | 0xAB =>
    (cpu.read_op bus 0).bind fun a cpu bus =>
    (cpu.read_op bus 1).bind fun b cpu bus =>
    let result := (a * b) % M32
    (cpu.write_op bus 1 result).bind fun _ cpu bus =>
    let cpu := cpu.set_nz_flags result 1
    let cpu := cpu.set_c_flag false
    let cpu := cpu.set_v_flag_op result 1
    .ok pc_increment cpu bus
  | 0xE8 | 0xEA | 0xEB =>
    (cpu.read_op bus 0).bind fun a cpu bus =>
    (cpu.read_op bus 1).bind fun b cpu bus =>
    let result := (a * b) % M32
    (cpu.write_op bus 2 result).bind fun _ cpu bus =>
    let cpu := cpu.set_nz_flags result 2
    let cpu := cpu.set_c_flag false
    let cpu := cpu.set_v_flag_op result 2
    .ok pc_increment cpu bus
  | 0xB0 | 0xB2 | 0xB3 =>
    (cpu.read_op bus 0).bind fun a cpu bus =>
    (cpu.read_op bus 1).bind fun b cpu bus =>
    let result := a ||| b
    (cpu.write_op bus 1 result).bind fun _ cpu bus =>
    let cpu := cpu.set_nz_flags result 1
    let cpu := cpu.set_c_flag false
    let cpu := cpu.set_v_flag_op result 1
    .ok pc_increment cpu bus
  | 0xF0 | 0xF2 | 0xF3 =>
    (cpu.read_op bus 0).bind fun a cpu bus =>
    (cpu.read_op bus 1).bind fun b cpu bus =>
    let result := a ||| b
    (cpu.write_op bus 2 result).bind fun _ cpu bus =>
    let cpu := cpu.set_nz_flags result 2
    let cpu := cpu.set_c_flag false
    let cpu := cpu.set_v_flag_op result 2
    .ok pc_increment cpu bus
  | 0x20 =>
    (busRead (bus.read_word ((cpu.r R_SP + M32 - 4) % M32)) cpu bus).bind fun val cpu bus =>
    (cpu.write_op bus 0 val).bind fun _ cpu bus =>
    let cpu := cpu.setReg R_SP ((cpu.r R_SP + M32 - 4) % M32)
    let cpu := cpu.set_nz_flags val 0
    let cpu := cpu.set_c_flag false
    let cpu := cpu.set_v_flag false
    .ok pc_increment cpu bus
  | 0xE0 =>
    (cpu.effective_address bus 0).bind fun val cpu bus =>
    (cpu.stack_push bus val).bind fun _ cpu bus =>
    let cpu := cpu.set_nz_flags val 0
    let cpu := cpu.set_c_flag false
    let cpu := cpu.set_v_flag false
    .ok pc_increment cpu bus
  | 0xA0 =>
    (cpu.read_op bus 0).bind fun val cpu bus =>
    (cpu.stack_push bus val).bind fun _ cpu bus =>
    let cpu := cpu.set_nz_flags val 0
    let cpu := cpu.set_c_flag false
    let cpu := cpu.set_v_flag false
    .ok pc_increment cpu bus
  | 0x18 =>
    let a := (cpu.r R_FP + M32 - 28) % M32
    (busRead (bus.read_word a) cpu bus).bind fun b cpu bus =>
    let c := (cpu.r R_FP + M32 - 24) % M32
    match (cpu.getOp 0).register with
    | none => .err (.Exception .IllegalOpcode) cpu bus
    | some r0 =>
      (restore_loop 9 cpu bus r0 c).bind fun _ cpu bus =>
      let cpu := cpu.setReg R_FP b
      let cpu := cpu.setReg R_SP a
      .ok pc_increment cpu bus
  | 0x40 =>
    if !cpu.n_flag || cpu.z_flag then
      (cpu.stack_pop bus).bind fun w cpu bus => .ok 0 (cpu.setReg R_PC w) bus
    else .ok pc_increment cpu bus
  | 0x50 =>
    if !cpu.c_flag then
      (cpu.stack_pop bus).bind fun w cpu bus => .ok 0 (cpu.setReg R_PC w) bus
    else .ok pc_increment cpu bus
  | 0x44 =>
    if !cpu.n_flag && !cpu.z_flag then
      (cpu.stack_pop bus).bind fun w cpu bus => .ok 0 (cpu.setReg R_PC w) bus
    else .ok pc_increment cpu bus
  | 0x74 | 0x64 =>
    if !cpu.z_flag then
      (cpu.stack_pop bus).bind fun w cpu bus => .ok 0 (cpu.setReg R_PC w) bus
    else .ok pc_increment cpu bus
  | 0x4C =>
    if cpu.n_flag || cpu.z_flag then
      (cpu.stack_pop bus).bind fun w cpu bus => .ok 0 (cpu.setReg R_PC w) bus
    else .ok pc_increment cpu bus
  | 0x5C =>
    if cpu.c_flag || cpu.z_flag then
      (cpu.stack_pop bus).bind fun w cpu bus => .ok 0 (cpu.setReg R_PC w) bus
    else .ok pc_increment cpu bus
  | 0x48 =>
    if cpu.n_flag || !cpu.z_flag then
      (cpu.stack_pop bus).bind fun w cpu bus => .ok 0 (cpu.setReg R_PC w) bus
    else .ok pc_increment cpu bus
  | 0x7C | 0x6C =>
    if cpu.z_flag then
      (cpu.stack_pop bus).bind fun w cpu bus => .ok 0 (cpu.setReg R_PC w) bus
    else .ok pc_increment cpu bus
  | 0x78 =>
    (cpu.stack_pop bus).bind fun w cpu bus => .ok 0 (cpu.setReg R_PC w) bus
  | 0x08 =>
    let a := cpu.r R_AP
    (busRead (bus.read_word ((cpu.r R_SP + M32 - 4) % M32)) cpu bus).bind fun b cpu bus =>
    (busRead (bus.read_word ((cpu.r R_SP + M32 - 8) % M32)) cpu bus).bind fun c cpu bus =>
    let cpu := cpu.setReg R_AP b
    let cpu := cpu.setReg R_PC c
    let cpu := cpu.setReg R_SP a
    .ok 0 cpu bus
  | 0x30c8 =>
    match cpu.priv_level with
    | .Kernel =>
      (cpu.irq_pop bus).bind fun new_pcbp cpu bus =>
      (busRead (bus.read_word new_pcbp) cpu bus).bind fun new_psw cpu bus =>
      let cpu := cpu.setReg R_PSW ((cpu.r R_PSW &&& not32 F_R) ||| (new_psw &&& F_R))
      (cpu.context_switch_2 bus new_pcbp).bind fun _ cpu bus =>
      (cpu.context_switch_3 fuel bus).bind fun _ cpu bus =>
      if cpu.r R_PSW &&& F_R ≠ 0 then
        (busRead (bus.read_word ((new_pcbp + 24) % M32)) cpu bus).bind fun w cpu bus =>
        let cpu := cpu.setReg R_FP w
        (busRead (bus.read_word ((new_pcbp + 28) % M32)) cpu bus).bind fun w cpu bus =>
        let cpu := cpu.setReg 0 w
        (busRead (bus.read_word ((new_pcbp + 32) % M32)) cpu bus).bind fun w cpu bus =>
        let cpu := cpu.setReg 1 w
        (busRead (bus.read_word ((new_pcbp + 36) % M32)) cpu bus).bind fun w cpu bus =>
        let cpu := cpu.setReg 2 w
        (busRead (bus.read_word ((new_pcbp + 40) % M32)) cpu bus).bind fun w cpu bus =>
        let cpu := cpu.setReg 3 w
        (busRead (bus.read_word ((new_pcbp + 44) % M32)) cpu bus).bind fun w cpu bus =>
        let cpu := cpu.setReg 4 w
        (busRead (bus.read_word ((new_pcbp + 48) % M32)) cpu bus).bind fun w cpu bus =>
        let cpu := cpu.setReg 5 w
        (busRead (bus.read_word ((new_pcbp + 52) % M32)) cpu bus).bind fun w cpu bus =>
        let cpu := cpu.setReg 6 w
        (busRead (bus.read_word ((new_pcbp + 56) % M32)) cpu bus).bind fun w cpu bus =>
        let cpu := cpu.setReg 7 w
        (busRead (bus.read_word ((new_pcbp + 60) % M32)) cpu bus).bind fun w cpu bus =>
        let cpu := cpu.setReg 8 w
        (busRead (bus.read_word ((new_pcbp + 20) % M32)) cpu bus).bind fun w cpu bus =>
        let cpu := cpu.setReg R_AP w
        .ok 0 cpu bus
      else
        .ok 0 cpu bus
    | _ => .err (.Exception .PrivilegedOpcode) cpu bus
  | 0x10 =>
    (busWrite (bus.write_word (cpu.r R_SP) (cpu.r R_FP)) cpu bus).bind fun _ cpu bus =>
    match (cpu.getOp 0).register with
    | none => .err (.Exception .IllegalOpcode) cpu bus
    | some r0 =>
      (save_loop 9 cpu bus r0 4).bind fun _ cpu bus =>
      let cpu := cpu.setReg R_SP ((cpu.r R_SP + 28) % M32)
      let cpu := cpu.setReg R_FP (cpu.r R_SP)
      .ok pc_increment cpu bus
  | 0xBC | 0xBE | 0xBF =>
    (cpu.read_op bus 1).bind fun a cpu bus =>
    (cpu.read_op bus 0).bind fun b cpu bus =>
    (cpu.sub bus a b 1).bind fun _ cpu bus =>
    .ok pc_increment cpu bus
  | 0xFC | 0xFE | 0xFF =>
    (cpu.read_op bus 1).bind fun a cpu bus =>
    (cpu.read_op bus 0).bind fun b cpu bus =>
    (cpu.sub bus a b 2).bind fun _ cpu bus =>
    .ok pc_increment cpu bus
  | 0x28 =>
    (cpu.read_op bus 0).bind fun a cpu bus =>
    let cpu := cpu.set_n_flag (decide (toI32 a < 0))
    let cpu := cpu.set_z_flag (decide (a = 0))
    let cpu := cpu.set_c_flag false
    let cpu := cpu.set_v_flag false
    .ok pc_increment cpu bus
  | 0x2A =>
    (cpu.read_op bus 0).bind fun a cpu bus =>
    let cpu := cpu.set_n_flag (decide (toI16 a < 0))
    let cpu := cpu.set_z_flag (decide (a = 0))
    let cpu := cpu.set_c_flag false
    let cpu := cpu.set_v_flag false
    .ok pc_increment cpu bus
  | 0x2B =>
    (cpu.read_op bus 0).bind fun a cpu bus =>
    let cpu := cpu.set_n_flag (decide (toI8 a < 0))
    let cpu := cpu.set_z_flag (decide (a = 0))
    let cpu := cpu.set_c_flag false
    let cpu := cpu.set_v_flag false
    .ok pc_increment cpu bus
  | 0xB4 | 0xB6 | 0xB7 =>
    (cpu.read_op bus 0).bind fun a cpu bus =>
    (cpu.read_op bus 1).bind fun b cpu bus =>
    let result := a ^^^ b
    (cpu.write_op bus 1 result).bind fun _ cpu bus =>
    let cpu := cpu.set_nz_flags result 1
    let cpu := cpu.set_c_flag false
    let cpu := cpu.set_v_flag_op result 1
    .ok pc_increment cpu bus
  | 0xF4 | 0xF6 | 0xF7 =>
    (cpu.read_op bus 0).bind fun a cpu bus =>
    (cpu.read_op bus 1).bind fun b cpu bus =>
    let result := a ^^^ b
    (cpu.write_op bus 2 result).bind fun _ cpu bus =>
    let cpu := cpu.set_nz_flags result 2
    let cpu := cpu.set_c_flag false
    let cpu := cpu.set_v_flag_op result 2
    .ok pc_increment cpu bus
  | _ => .err (.Exception .IllegalOpcode) cpu bus

/-- The interrupt poll at the top of Cpu::dispatch: when a vector is
pending and the current IPL admits it, take the interrupt. -/
def poll_interrupt (fuel : Nat) (cpu : Cpu) (bus : Bus) : Outcome Unit :=
  match bus.get_interrupts with
  | some val =>
    let cpu_ipl := (cpu.r R_PSW >>> 13) &&& 0xf
    if cpu_ipl < iplGet (val &&& 0x3f) then
      cpu.on_interrupt fuel bus ((val ^^^ 0xff) &&& 0x3f)
    else .ok () cpu bus
  | none => .ok () cpu bus

/-- Cpu::dispatch: count the step, service the bus, poll interrupts,
decode and execute, returning the signed PC increment. -/
def dispatch (fuel : Nat) (cpu : Cpu) (bus : Bus) : Outcome Int :=
  let cpu := { cpu with steps := cpu.steps + 1 }
  let bus := bus.service
  (poll_interrupt fuel cpu bus).bind fun _ cpu bus =>
  (cpu.decode_instruction fuel bus).bind fun _ cpu bus =>
  execute_instr fuel cpu bus

/-- Cpu::step: advance PC on success, silently swallow every error
(every error arm of the Rust match is an empty block). -/
def step (fuel : Nat) (cpu : Cpu) (bus : Bus) : Option (Cpu × Bus) :=
  match dispatch fuel cpu bus with
  | .ok i cpu bus => some (cpu.setReg R_PC (pcAdd (cpu.r R_PC) i), bus)
  | .err _ cpu bus => some (cpu, bus)
  | .stuck => none

/-- Cpu::step_with_error: advance PC on success, return the error to
the caller otherwise. -/
def step_with_error (fuel : Nat) (cpu : Cpu) (bus : Bus) : Outcome Unit :=
  match dispatch fuel cpu bus with
  | .ok i cpu bus => .ok () (cpu.setReg R_PC (pcAdd (cpu.r R_PC) i)) bus
  | .err e cpu bus => .err e cpu bus
  | .stuck => .stuck

/-! Helper lemmas. -/

/-- Or-ing a single flag bit into the PSW leaves every other bit as it
was. -/
theorem or_flag_testBit (psw b k : Nat) (hk : k ≠ b) :
    (psw ||| 2 ^ b).testBit k = psw.testBit k := by
  simp [Nat.testBit_or, Nat.testBit_two_pow_of_ne (fun h => hk h.symm)]

/-- Masking a single flag bit out of the PSW leaves every other of the
32 bits as it was. -/
theorem and_not32_flag_testBit (psw b k : Nat) (hb : 2 ^ b < M32) (hk : k ≠ b)
    (hk32 : k < 32) : (psw &&& not32 (2 ^ b)).testBit k = psw.testBit k := by
  have h2 : (2 : Nat) ^ b % M32 = 2 ^ b := Nat.mod_eq_of_lt hb
  have hmask : Nat.testBit MASK32 k = true := by
    have hm : MASK32 = 2 ^ 32 - 1 := by norm_num [MASK32]
    rw [hm, Nat.testBit_two_pow_sub_one]
    simp [hk32]
  have hflag : Nat.testBit (2 ^ b) k = false :=
    Nat.testBit_two_pow_of_ne (fun h => hk h.symm)
  rw [not32, h2]
  simp [Nat.testBit_and, Nat.testBit_xor, hmask, hflag]

/-- C9: each of the four condition-flag setters touches only its own
PSW bit (C is bit 18, V is 19, Z is 20, N is 21) and no other
register. -/
theorem c9_flag_isolation (cpu : Cpu) (x : Bool) :
    (∀ i, i ≠ R_PSW →
      (cpu.set_c_flag x).r i = cpu.r i ∧ (cpu.set_v_flag x).r i = cpu.r i ∧
      (cpu.set_z_flag x).r i = cpu.r i ∧ (cpu.set_n_flag x).r i = cpu.r i) ∧
    (∀ k, k < 32 → k ≠ 18 → ((cpu.set_c_flag x).r R_PSW).testBit k = (cpu.r R_PSW).testBit k) ∧
    (∀ k, k < 32 → k ≠ 19 → ((cpu.set_v_flag x).r R_PSW).testBit k = (cpu.r R_PSW).testBit k) ∧
    (∀ k, k < 32 → k ≠ 20 → ((cpu.set_z_flag x).r R_PSW).testBit k = (cpu.r R_PSW).testBit k) ∧
    (∀ k, k < 32 → k ≠ 21 → ((cpu.set_n_flag x).r R_PSW).testBit k = (cpu.r R_PSW).testBit k) := by
  have hC : F_C = 2 ^ 18 := by norm_num [F_C]
  have hV : F_V = 2 ^ 19 := by norm_num [F_V]
  have hZ : F_Z = 2 ^ 20 := by norm_num [F_Z]
  have hN : F_N = 2 ^ 21 := by norm_num [F_N]
  refine ⟨?_, ?_, ?_, ?_, ?_⟩
  · intro i hi
    cases x <;>
      simp [Cpu.set_c_flag, Cpu.set_v_flag, Cpu.set_z_flag, Cpu.set_n_flag, Cpu.setReg,
            Function.update_noteq hi]
  · intro k hk32 hk
    cases x <;>
      simp only [Cpu.set_c_flag, if_true, if_false, Cpu.setReg, Function.update_same, hC]
    · exact and_not32_flag_testBit _ 18 k (by norm_num [M32]) hk hk32
    · exact or_flag_testBit _ 18 k hk
  · intro k hk32 hk
    cases x <;>
      simp only [Cpu.set_v_flag, if_true, if_false, Cpu.setReg, Function.update_same, hV]
    · exact and_not32_flag_testBit _ 19 k (by norm_num [M32]) hk hk32
    · exact or_flag_testBit _ 19 k hk
  · intro k hk32 hk
    cases x <;>
      simp only [Cpu.set_z_flag, if_true, if_false, Cpu.setReg, Function.update_same, hZ]
    · exact and_not32_flag_testBit _ 20 k (by norm_num [M32]) hk hk32
    · exact or_flag_testBit _ 20 k hk
  · intro k hk32 hk
    cases x <;>
      simp only [Cpu.set_n_flag, if_true, if_false, Cpu.setReg, Function.update_same, hN]
    · exact and_not32_flag_testBit _ 21 k (by norm_num [M32]) hk hk32
    · exact or_flag_testBit _ 21 k hk

/-- Witness for C9 at a concrete CPU with every PSW bit set. -/
theorem c9_flag_isolation_witness :
    ((({ Cpu.new with r := fun _ => 4294967295 } : Cpu).set_c_flag false).r 0 =
      ({ Cpu.new with r := fun _ => 4294967295 } : Cpu).r 0) ∧
    ((({ Cpu.new with r := fun _ => 4294967295 } : Cpu).set_c_flag false).r R_PSW).testBit 21 =
      (({ Cpu.new with r := fun _ => 4294967295 } : Cpu).r R_PSW).testBit 21 :=
  ⟨((c9_flag_isolation { Cpu.new with r := fun _ => 4294967295 } false).1 0 (by decide)).1,
   (c9_flag_isolation { Cpu.new with r := fun _ => 4294967295 } false).2.1 21 (by decide) (by decide)⟩

/-- C10: the two step entry points are two wrappers around the same
dispatch; they advance the PC identically on success and leave the
machine exactly as dispatch left it on failure, step_with_error merely
reporting the error that step swallows. -/
theorem c10_step_equivalence (fuel : Nat) (cpu : Cpu) (bus : Bus) :
    (∀ i c' b', dispatch fuel cpu bus = .ok i c' b' →
      step fuel cpu bus = some (c'.setReg R_PC (pcAdd (c'.r R_PC) i), b') ∧
      step_with_error fuel cpu bus = .ok () (c'.setReg R_PC (pcAdd (c'.r R_PC) i)) b') ∧
    (∀ e c' b', dispatch fuel cpu bus = .err e c' b' →
      step fuel cpu bus = some (c', b') ∧
      step_with_error fuel cpu bus = .err e c' b') ∧
    (dispatch fuel cpu bus = .stuck →
      step fuel cpu bus = none ∧ step_with_error fuel cpu bus = .stuck) := by
  refine ⟨?_, ?_, ?_⟩
  · intro i c' b' h
    refine ⟨?_, ?_⟩
    · unfold step; rw [h]
    · unfold step_with_error; rw [h]
  · intro e c' b' h
    refine ⟨?_, ?_⟩
    · unfold step; rw [h]
    · unfold step_with_error; rw [h]
  · intro h
    refine ⟨?_, ?_⟩
    · unfold step; rw [h]
    · unfold step_with_error; rw [h]

set_option maxRecDepth 20000 in
/-- Witness for C10 on a concrete one-byte NOP program. -/
theorem c10_step_equivalence_witness :
    (step 8 ({ Cpu.new with r := Function.update (fun _ => 0) R_PC 0x700000 }) (busOfProgram 0x700000 [0x70])).isSome = true := by
  have h := (c10_step_equivalence 8
    { Cpu.new with r := Function.update (fun _ => 0) R_PC 0x700000 }
    (busOfProgram 0x700000 [0x70])).1 1
    (((dispatch 8 { Cpu.new with r := Function.update (fun _ => 0) R_PC 0x700000 }
      (busOfProgram 0x700000 [0x70])).cpuVal).getD Cpu.new)
    (((dispatch 8 { Cpu.new with r := Function.update (fun _ => 0) R_PC 0x700000 }
      (busOfProgram 0x700000 [0x70])).busVal).getD (busOfProgram 0x700000 [0x70])) rfl
  rw [h.1]
  rfl

/-- The WE32100 privilege decode: a nonzero CM field is anything but
Kernel. -/
theorem priv_level_ne_kernel (cpu : Cpu)
    (h : ((cpu.r R_PSW &&& F_CM) >>> 11) &&& 3 ≠ 0) :
    cpu.priv_level ≠ CpuLevel.Kernel := by
  unfold Cpu.priv_level
  rcases hcm : ((cpu.r R_PSW &&& F_CM) >>> 11) &&& 3 with _ | _ | _ | n <;>
    simp_all

/-- C7: CALLPS (0x30AC), RETPS (0x30C8), ENBVJMP (0x300D) and DISVJMP
(0x3013) dispatched with a non-Kernel current execution mode fail with
PrivilegedOpcode, leaving the CPU and bus exactly as they were. -/
theorem c7_privileged_opcodes (fuel : Nat) (cpu : Cpu) (bus : Bus)
    (hop : cpu.ir.opcode = 0x30ac ∨ cpu.ir.opcode = 0x30c8 ∨
           cpu.ir.opcode = 0x300d ∨ cpu.ir.opcode = 0x3013)
    (hcm : ((cpu.r R_PSW &&& F_CM) >>> 11) &&& 3 ≠ 0) :
    execute_instr fuel cpu bus = .err (.Exception .PrivilegedOpcode) cpu bus := by
  have hpriv := priv_level_ne_kernel cpu hcm
  rcases hop with h | h | h | h <;>
    (unfold execute_instr
     rw [h]
     cases hp : cpu.priv_level <;> simp_all)

/-- Witness for C7: DISVJMP in User mode. -/
theorem c7_privileged_opcodes_witness :
    execute_instr 8
      { Cpu.new with r := Function.update (fun _ => 0) R_PSW 0x1800,
                     ir := { emptyInstruction with opcode := 0x3013 } }
      (busOfProgram 0 []) =
    .err (.Exception .PrivilegedOpcode)
      { Cpu.new with r := Function.update (fun _ => 0) R_PSW 0x1800,
                     ir := { emptyInstruction with opcode := 0x3013 } }
      (busOfProgram 0 []) :=
  c7_privileged_opcodes 8 _ _ (by simp) (by decide)

/-- The IPL table as the spec words it: entry 0 maps to 0, entries 1
through 7 to 14, entries 8 through 63 to 15 (written on the residue
modulo 64, which is what the masked index selects). -/
def iplSpec (v : Nat) : Nat :=
  if v % 64 = 0 then 0 else if v % 64 ≤ 7 then 14 else 15

/-- The source IPL table lookup at a masked index agrees with the spec
table. -/
theorem iplGet_eq_spec (v : Nat) : iplGet (v &&& 0x3f) = iplSpec v := by
  have h : v &&& 0x3f = v % 64 := by
    have h6 := Nat.and_pow_two_sub_one_eq_mod v 6
    norm_num at h6
    exact h6
  have h64 : v % 64 < 64 := Nat.mod_lt _ (by norm_num)
  have haux : ∀ m, m < 64 → iplGet m = (if m = 0 then 0 else if m ≤ 7 then 14 else 15) := by
    decide
  rw [h, haux (v % 64) h64]
  simp [iplSpec]

/-- C8: on a step with pending vector v, interrupt entry
on_interrupt((complement of v) masked to 6 bits) runs exactly when the
current IPL (PSW bits 13 to 16) is strictly below the table value for
v mod 64; with no vector pending, or a failing comparison, the poll is
a no-op; and the table is 0 for entry 0, 14 for entries 1 to 7, 15 for
entries 8 to 63. -/
theorem c8_interrupt_gating (fuel : Nat) (cpu : Cpu) (bus : Bus) :
    (bus.get_interrupts = none → poll_interrupt fuel cpu bus = .ok () cpu bus) ∧
    (∀ v, bus.get_interrupts = some v →
      poll_interrupt fuel cpu bus =
        if ((cpu.r R_PSW >>> 13) &&& 0xf) < iplSpec v
        then cpu.on_interrupt fuel bus ((v ^^^ 0xff) &&& 0x3f)
        else .ok () cpu bus) ∧
    (iplGet 0 = 0 ∧ (∀ i < 64, 1 ≤ i → i ≤ 7 → iplGet i = 14) ∧
     (∀ i < 64, 8 ≤ i → iplGet i = 15)) := by
  refine ⟨?_, ?_, by decide⟩
  · intro h
    unfold poll_interrupt
    rw [h]
  · intro v h
    simp only [poll_interrupt, h]
    rw [iplGet_eq_spec]

/-- Witness for C8: vector 5 pending against a zero IPL takes the
interrupt with the complemented vector 58. -/
theorem c8_interrupt_gating_witness :
    poll_interrupt 4 Cpu.new ⟨fun _ => none, some 5, 0⟩ =
      Cpu.new.on_interrupt 4 ⟨fun _ => none, some 5, 0⟩ ((5 ^^^ 0xff) &&& 0x3f) := by
  have h := (c8_interrupt_gating 4 Cpu.new ⟨fun _ => none, some 5, 0⟩).2.1 5 rfl
  rw [h, if_pos (by decide)]

/-- Computing an effective address never changes a register or the bus:
it only records the address in the operand and reads from the bus. -/
theorem effective_address_frame {cpu : Cpu} {bus : Bus} {i a : Nat} {c' : Cpu} {b' : Bus}
    (h : cpu.effective_address bus i = .ok a c' b') : c'.r = cpu.r ∧ b' = bus := by
  unfold Cpu.effective_address at h
  simp only [] at h
  repeat' split at h
  all_goals try (cases h)
  all_goals exact ⟨rfl, rfl⟩

/-- Reading an operand never changes a register or the bus. -/
theorem read_op_frame {cpu : Cpu} {bus : Bus} {i v : Nat} {c' : Cpu} {b' : Bus}
    (h : cpu.read_op bus i = .ok v c' b') : c'.r = cpu.r ∧ b' = bus := by
  unfold Cpu.read_op at h
  simp only [] at h
  repeat' split at h
  all_goals try (cases h)
  all_goals try (exact ⟨rfl, rfl⟩)
  all_goals
    cases he : cpu.effective_address bus i with
    | ok ea ce be =>
      rw [he] at h
      have hf := effective_address_frame he
      simp only [Outcome.bind, busRead] at h
      repeat' split at h
      all_goals try (cases h)
      all_goals try (exact hf)
      all_goals (rename_i heq; split at heq; all_goals (cases heq <;> exact hf))
    | err e ce be =>
      rw [he] at h
      simp only [Outcome.bind] at h
      cases h
    | stuck =>
      rw [he] at h
      simp only [Outcome.bind] at h
      cases h

/-- The one-step zero-divide program: DIVW2 with a zero literal divisor
into R0, at base address 0x700000. -/
def divZeroBus : Bus := busOfProgram 0x700000 [0xAC, 0x00, 0x40]

/-- The machine about to run the zero-divide program: PC at the base,
all other registers (R0 included) zero. -/
def divZeroCpu : Cpu := { Cpu.new with r := Function.update (fun _ => 0) R_PC 0x700000 }

/-- C4: every DIV and MOD opcode whose divisor source reads as zero
fails with IntegerZeroDivide before writing anything: the registers and
the bus are untouched; and concretely one step of AC 00 40 with R0 = 0
returns that exception with the PC still at the base. -/
theorem c4_divmod_zero_divisor :
    (∀ (fuel : Nat) (cpu c1 c2 : Cpu) (bus b1 b2 : Bus) (v : Nat),
      (cpu.ir.opcode = 0xAC ∨ cpu.ir.opcode = 0xAE ∨ cpu.ir.opcode = 0xAF ∨
       cpu.ir.opcode = 0xEC ∨ cpu.ir.opcode = 0xEE ∨ cpu.ir.opcode = 0xEF ∨
       cpu.ir.opcode = 0xA4 ∨ cpu.ir.opcode = 0xA6 ∨ cpu.ir.opcode = 0xA7 ∨
       cpu.ir.opcode = 0xE4 ∨ cpu.ir.opcode = 0xE6 ∨ cpu.ir.opcode = 0xE7) →
      cpu.read_op bus 0 = .ok 0 c1 b1 →
      c1.read_op b1 1 = .ok v c2 b2 →
      execute_instr fuel cpu bus = .err (.Exception .IntegerZeroDivide) c2 b2 ∧
      c2.r = cpu.r ∧ b2 = bus) ∧
    (step_with_error 32 divZeroCpu divZeroBus).errVal =
      some (.Exception .IntegerZeroDivide) ∧
    ((step_with_error 32 divZeroCpu divZeroBus).cpuVal.map fun c => c.r R_PC) =
      some 0x700000 := by
  refine ⟨?_, rfl, rfl⟩
  intro fuel cpu c1 c2 bus b1 b2 v hop h0 h1
  refine ⟨?_, (read_op_frame h1).1.trans (read_op_frame h0).1,
          (read_op_frame h1).2.trans (read_op_frame h0).2⟩
  unfold execute_instr
  rcases hop with h | h | h | h | h | h | h | h | h | h | h | h <;>
    (rw [h]; simp only [h0, h1, Outcome.bind]; rfl)

/-- The machine of the zero-divide scenario after decode, about to
execute. -/
def c4cpu : Cpu := ((divZeroCpu.decode_instruction 32 divZeroBus).cpuVal).getD Cpu.new

/-- Witness for C4 at the decoded zero-divide scenario. -/
theorem c4_divmod_zero_divisor_witness :
    execute_instr 32 c4cpu divZeroBus =
      .err (.Exception .IntegerZeroDivide) c4cpu divZeroBus := by
  have h := c4_divmod_zero_divisor.1 32 c4cpu c4cpu c4cpu divZeroBus divZeroBus divZeroBus 0
    (Or.inl rfl) rfl rfl
  exact h.1

/-! Claim C1: register writes through write_op. -/

/-- A two-operand MOVB whose destination descriptor byte 0x4B names
register 11, the PSW. -/
def c1bus : Bus := busOfProgram 0x700000 [0x87, 0x40, 0x4B]

/-- The machine after decoding that instruction, about to execute. -/
def c1cpu : Cpu :=
  ((({ Cpu.new with r := Function.update (fun _ => 0) R_PC 0x700000 }
    : Cpu).decode_instruction 32 c1bus).cpuVal).getD Cpu.new

/-- C1 counterexample: descriptor byte 0x4B decodes to a Register
operand naming register 11 (the PSW), and a normal operand write to it
does change the PSW, from 0 to the written value. -/
theorem c1_counterexample :
    (c1cpu.getOp 1).mode = AddrMode.Register ∧
    (c1cpu.getOp 1).register = some 11 ∧
    c1cpu.r R_PSW = 0 ∧
    ((c1cpu.write_op c1bus 1 0x12345678).cpuVal.map fun c => c.r R_PSW) =
      some 0x12345678 :=
  ⟨rfl, rfl, rfl, rfl⟩

/-- C1 amended: write_op on a Register-mode operand writes exactly the
named register, whatever its index (11, 13 and 14 included), and leaves
every other register unchanged. -/
theorem c1_register_write_targets (cpu : Cpu) (bus : Bus) (index val r : Nat)
    (hm : (cpu.getOp index).mode = AddrMode.Register)
    (hr : (cpu.getOp index).register = some r) :
    cpu.write_op bus index val = .ok () ((cpu.setReg r val).setOpData index val) bus ∧
    ((cpu.setReg r val).setOpData index val).r r = val ∧
    (∀ j, j ≠ r → ((cpu.setReg r val).setOpData index val).r j = cpu.r j) := by
  refine ⟨?_, ?_, ?_⟩
  · unfold Cpu.write_op
    simp only [hm, hr]
  · simp [Cpu.setOpData, Cpu.setOp, Cpu.setReg, Function.update_same]
  · intro j hj
    simp [Cpu.setOpData, Cpu.setOp, Cpu.setReg, Function.update_noteq hj]

/-- Witness for the amended C1 at the concrete PSW-writing operand. -/
theorem c1_register_write_targets_witness :
    c1cpu.write_op c1bus 1 0x12345678 =
      .ok () ((c1cpu.setReg 11 0x12345678).setOpData 1 0x12345678) c1bus :=
  (c1_register_write_targets c1cpu c1bus 1 0x12345678 11 rfl rfl).1

/-! Claim C2: recorded operand size versus bytes consumed. -/

/-- The failing stream: expanded-type prefix 0xE7 then NegativeLiteral
0xFF. -/
def c2bus : Bus := busOfProgram 0x700000 [0xE7, 0xFF]

/-- The machine after decoding the expanded NegativeLiteral. -/
def c2cpu : Cpu :=
  ((Cpu.new.decode_descriptor_operand 32 c2bus 0 .Byte none 0x700000 false).cpuVal).getD Cpu.new

/-- A contrasting stream whose recursive descriptor is a register:
there the recorded size does honour the prefix byte. -/
def c2busReg : Bus := busOfProgram 0x700000 [0xE7, 0x40]

/-- The machine after decoding the expanded Register operand. -/
def c2cpuReg : Cpu :=
  ((Cpu.new.decode_descriptor_operand 32 c2busReg 0 .Byte none 0x700000 false).cpuVal).getD Cpu.new

/-- C2 at the failing input: decoding E7 FF succeeds and consumed both
bytes (the mode, override and embedded value all come from the second
byte), yet the recorded size is 1, not the 2 the claim requires; the
same prefix before a register descriptor records size 2. -/
theorem c2_expanded_negative_literal_size :
    (c2cpu.getOp 0).mode = AddrMode.NegativeLiteral ∧
    (c2cpu.getOp 0).expandedType = some Data.SByte ∧
    (c2cpu.getOp 0).embedded = 0xFF ∧
    (c2cpu.getOp 0).size = 1 ∧
    (c2cpuReg.getOp 0).mode = AddrMode.Register ∧
    (c2cpuReg.getOp 0).size = 2 :=
  ⟨rfl, rfl, rfl, rfl, rfl, rfl⟩

/-! Claim C3: nesting of the expanded-type recursion. -/

/-- Two consecutive expanded-type prefixes before a register
descriptor. -/
def c3bus : Bus := busOfProgram 0x700000 [0xE0, 0xE7, 0x40]

/-- The machine after decoding the doubly-prefixed operand. -/
def c3cpu : Cpu :=
  ((Cpu.new.decode_descriptor_operand 32 c3bus 0 .Byte none 0x700000 false).cpuVal).getD Cpu.new

/-- C3 counterexample: on the stream E0 E7 40 the decode succeeds with
the register taken from the third byte and the width override SByte
taken from the second 0xE7 byte, displacing the UWord override of the
first prefix: the recursive call did process a second consecutive 0xE*
byte as another expanded-type prefix. -/
theorem c3_counterexample :
    (c3cpu.getOp 0).mode = AddrMode.Register ∧
    (c3cpu.getOp 0).register = some 0 ∧
    (c3cpu.getOp 0).expandedType = some Data.SByte ∧
    ¬ (c3cpu.getOp 0).expandedType = some Data.UWord :=
  ⟨rfl, rfl, rfl, by decide⟩

/-- C3 amended: whenever the byte at the stream address is 0xE7, the
decoder enters the expanded-type arm and recurses with the SByte
override, regardless of whether this call is already the recursive one:
nothing stops a second consecutive prefix. -/
theorem c3_amended_nested_prefix (fuel : Nat) (cpu : Cpu) (bus : Bus) (index : Nat)
    (dtype : Data) (etype : Option Data) (addr : Nat) (recur : Bool)
    (hb : bus.read_byte addr = .ok 0xE7) :
    cpu.decode_descriptor_operand (fuel + 1) bus index dtype etype addr recur =
      cpu.decode_descriptor_operand fuel bus index dtype (some Data.SByte) (addr + 1) true := by
  conv_lhs => rw [Cpu.decode_descriptor_operand, hb]
  rfl

/-- Witness for the amended C3 on the recursive call itself: the second
prefix byte of the E0 E7 40 stream is consumed as a prefix. -/
theorem c3_amended_nested_prefix_witness :
    Cpu.new.decode_descriptor_operand 32 c3bus 0 .Byte (some Data.UWord) (0x700000 + 1) true =
      Cpu.new.decode_descriptor_operand 31 c3bus 0 .Byte (some Data.SByte) (0x700000 + 2) true :=
  c3_amended_nested_prefix 31 Cpu.new c3bus 0 .Byte (some Data.UWord) (0x700000 + 1) true rfl

/-! Claim C5: DIV of most-negative by minus one. -/

/-- DIVW2 %r0,%r1 at the base address. -/
def c5busW : Bus := busOfProgram 0x700000 [0xAC, 0x40, 0x41]

/-- Word divisor -1, word dividend the most negative i32. -/
def c5cpuW : Cpu :=
  { Cpu.new with r := Function.update (Function.update
      (Function.update (fun _ => 0) R_PC 0x700000) 0 0xffffffff) 1 0x80000000 }

/-- DIVH2 %r0,%r1 at the base address. -/
def c5busH : Bus := busOfProgram 0x700000 [0xAE, 0x40, 0x41]

/-- Half divisor bits 0xFFFF, half dividend bits 0x8000. -/
def c5cpuH : Cpu :=
  { Cpu.new with r := Function.update (Function.update
      (Function.update (fun _ => 0) R_PC 0x700000) 0 0xffff) 1 0x8000 }

/-- C5 at the failing inputs: dividing the most negative value by minus
one does not complete normally at any width: the Word case (where the
source does set V first) aborts in Cpu::div, since i32 division of
i32::MIN by -1 overflows, a Rust panic; the Half case aborts the same
way, and moreover its V check compares the divisor word against 0xFFFF
and the dividend against 0x8000, values a sign-extending halfword read
can never produce, so there V is not even set first (the byte case is
analogous). -/
theorem c5_div_most_negative_panics :
    step_with_error 32 c5cpuW c5busW = .stuck ∧
    step_with_error 32 c5cpuH c5busH = .stuck ∧
    (∀ x, sign_extend_halfword x ≠ 0xffff) ∧
    (∀ x, sign_extend_halfword x ≠ 0x8000) ∧
    (∀ x, sign_extend_byte x ≠ 0xff) ∧
    (∀ x, sign_extend_byte x ≠ 0x80) := by
  refine ⟨rfl, rfl, ?_, ?_, ?_, ?_⟩
  · intro x; simp only [sign_extend_halfword, M16]; split <;> omega
  · intro x; simp only [sign_extend_halfword, M16]; split <;> omega
  · intro x; simp only [sign_extend_byte, M8]; split <;> omega
  · intro x; simp only [sign_extend_byte, M8]; split <;> omega

/-! Claim C6: the data field after read_op and write_op. -/

/-- MOVB %r0,%r1 at the base address. -/
def c6busR : Bus := busOfProgram 0x700000 [0x87, 0x40, 0x41]

/-- The machine after decoding it, with R0 holding 0x5A. -/
def c6cpuR : Cpu :=
  ((({ Cpu.new with r := Function.update (Function.update (fun _ => 0) R_PC 0x700000) 0 0x5a }
    : Cpu).decode_instruction 32 c6busR).cpuVal).getD Cpu.new

/-- MOVB 6(%r1),%r0 at the base address, with the byte 0x1F mapped at
the effective address 0x700206. -/
def c6busM : Bus :=
  { busOfProgram 0x700000 [0x87, 0xc1, 0x06, 0x40] with
    mem := Function.update (busOfProgram 0x700000 [0x87, 0xc1, 0x06, 0x40]).mem
      0x700206 (some 0x1f) }

/-- The machine after decoding the displacement form, with R1 holding
the base of the data area. -/
def c6cpuM : Cpu :=
  ((({ Cpu.new with r := Function.update (Function.update (fun _ => 0) R_PC 0x700000) 1 0x700200 }
    : Cpu).decode_instruction 32 c6busM).cpuVal).getD Cpu.new

/-- C6 at the failing inputs: a register-mode read returns 0x5A but
leaves the operand data field at its stale value 0; a memory-mode read
returns 0x1F but leaves the effective address 0x700206 in the data
field, not the transferred value; write_op, by contrast, does record
the written value. -/
theorem c6_read_op_data_stale :
    (c6cpuR.read_op c6busR 0).okVal = some 0x5a ∧
    ((c6cpuR.read_op c6busR 0).cpuVal.map fun c => (c.getOp 0).data) = some 0 ∧
    (c6cpuM.read_op c6busM 0).okVal = some 0x1f ∧
    ((c6cpuM.read_op c6busM 0).cpuVal.map fun c => (c.getOp 0).data) = some 0x700206 ∧
    ((c6cpuR.write_op c6busR 1 0x77).cpuVal.map fun c => (c.getOp 1).data) = some 0x77 :=
  ⟨rfl, rfl, rfl, rfl, rfl⟩

end DmdCore
